import Mathlib

/-!
# piservod: servo channel model, control protocol and PWM frame

A shallow embedding of `servo.c`, `gpio.c`, `protocol.c`, `pwm.c` and of
`handle_command` and `handle_client_data` of `piservod.c`.

* C strings are lists of byte values (`List Nat`), without the terminating NUL.
* Machine integers are `Int`; every narrowing conversion the C code performs is
  written out (`toU8`, `toU16`, `toI16`, `toI32`, `toU32`).
* The libc function `atoi` is the one of glibc, `(int) strtol(s, NULL, 10)`,
  with a `long` of 64 bits.
* Calls on the memory-mapped register block and sleeps are recorded as a trace
  of `HwOp` values, in program order.
-/

namespace Piservod

set_option maxRecDepth 100000

/-! ## Machine integers -/

/-- Conversion to `uint8_t`. -/
def toU8 (x : Int) : Int := x % 256

/-- Conversion to `uint16_t`. -/
def toU16 (x : Int) : Int := x % 65536

/-- Conversion to `int16_t` (two's complement wrap, as gcc does). -/
def toI16 (x : Int) : Int := (x + 32768) % 65536 - 32768

/-- Conversion to `int` (32 bits, two's complement wrap, as gcc does). -/
def toI32 (x : Int) : Int := (x + 2147483648) % 4294967296 - 2147483648

/-- Conversion to `uint32_t`. -/
def toU32 (x : Int) : Int := x % 4294967296

/-! ## Constants of servo.h and protocol.h -/

def SERVO_MIN_US : Int := 1000
def SERVO_MAX_US : Int := 2000
def SERVO_NEUTRAL_US : Int := 1500
def SERVO_ABSOLUTE_MIN : Int := 500
def SERVO_ABSOLUTE_MAX : Int := 2500
def MAX_SERVO_CHANNELS : Int := 8
def MAX_GPIO_PIN : Int := 27
def MAX_COMMAND_LENGTH : Nat := 256
def MAX_RESPONSE_LENGTH : Nat := 256
def MAX_ERROR_MESSAGE : Nat := 128

/-! ## gpio.c: operations on the register block, as a trace -/

/-- One effect on the outside world: a pin operation that reaches the register
block, or a sleep of the given number of microseconds. -/
inductive HwOp where
  | set_output (pin : Int)
  | set_input (pin : Int)
  | set_high (pin : Int)
  | set_low (pin : Int)
  | sleep (us : Int)
deriving DecidableEq, Repr

/-- The function `gpio_set_function` with `GPIO_FSEL_OUTPUT`; the register block
is mapped (the daemon exits at startup otherwise), pins above 27 are ignored. -/
def gpio_set_output (pin : Int) : List HwOp :=
  if pin > MAX_GPIO_PIN then [] else [HwOp.set_output pin]

/-- The function `gpio_set_function` with `GPIO_FSEL_INPUT`. -/
def gpio_set_input (pin : Int) : List HwOp :=
  if pin > MAX_GPIO_PIN then [] else [HwOp.set_input pin]

/-- Write of the pin's bit to `GPSET0`. -/
def gpio_set (pin : Int) : List HwOp :=
  if pin > MAX_GPIO_PIN then [] else [HwOp.set_high pin]

/-- Write of the pin's bit to `GPCLR0`. -/
def gpio_clear (pin : Int) : List HwOp :=
  if pin > MAX_GPIO_PIN then [] else [HwOp.set_low pin]

/-! ## servo.h / servo.c -/

/-- The struct `ServoChannel`: `gpio` and `enabled` are `uint8_t`, the three
pulse fields are `int16_t`. -/
structure ServoChannel where
  gpio : Int
  enabled : Int
  min_us : Int
  max_us : Int
  pulse_us : Int
deriving DecidableEq, Repr

/-- The struct `ServoController` (the fields `running` and `listen_fd` are never
read by the code embedded here). -/
structure ServoController where
  channels : List ServoChannel
  num_channels : Int
deriving DecidableEq, Repr

/-- The function `servo_init` on a non-null channel: result, channel, trace. -/
def servo_init (channel : ServoChannel) (gpio : Int) :
    Bool × ServoChannel × List HwOp :=
  if gpio > MAX_GPIO_PIN then (false, channel, [])
  else
    let channel : ServoChannel :=
      { gpio := gpio, enabled := 0, min_us := SERVO_MIN_US,
        max_us := SERVO_MAX_US, pulse_us := SERVO_NEUTRAL_US }
    (true, channel, gpio_set_output channel.gpio ++ gpio_clear channel.gpio)

/-- The function `servo_enable` on a non-null channel. -/
def servo_enable (channel : ServoChannel) : ServoChannel :=
  { channel with enabled := 1 }

/-- The function `servo_disable` on a non-null channel. -/
def servo_disable (channel : ServoChannel) : ServoChannel × List HwOp :=
  let channel := { channel with enabled := 0 }
  (channel, gpio_clear channel.gpio)

/-- The function `servo_close` on a non-null channel. -/
def servo_close (channel : ServoChannel) : ServoChannel × List HwOp :=
  let r := servo_disable channel
  (r.1, r.2 ++ gpio_set_input r.1.gpio)

/-- The function `servo_set_range` on a non-null channel. -/
def servo_set_range (channel : ServoChannel) (min_us max_us : Int) :
    Bool × ServoChannel :=
  if min_us ≥ max_us then (false, channel)
  else
    let clamped := false
    let (min_us, clamped) :=
      if min_us < SERVO_ABSOLUTE_MIN then (SERVO_ABSOLUTE_MIN, true) else (min_us, clamped)
    let (max_us, clamped) :=
      if max_us > SERVO_ABSOLUTE_MAX then (SERVO_ABSOLUTE_MAX, true) else (max_us, clamped)
    let channel := { channel with min_us := min_us, max_us := max_us }
    let (channel, clamped) :=
      if channel.pulse_us < min_us then ({ channel with pulse_us := min_us }, true)
      else (channel, clamped)
    let (channel, clamped) :=
      if channel.pulse_us > max_us then ({ channel with pulse_us := max_us }, true)
      else (channel, clamped)
    (!clamped, channel)

/-- The function `servo_set_pulse` on a non-null channel. -/
def servo_set_pulse (channel : ServoChannel) (pulse_us : Int) :
    Bool × ServoChannel :=
  let original := pulse_us
  let pulse_us := if pulse_us < channel.min_us then channel.min_us else pulse_us
  let pulse_us := if pulse_us > channel.max_us then channel.max_us else pulse_us
  let pulse_us := if pulse_us < SERVO_ABSOLUTE_MIN then SERVO_ABSOLUTE_MIN else pulse_us
  let pulse_us := if pulse_us > SERVO_ABSOLUTE_MAX then SERVO_ABSOLUTE_MAX else pulse_us
  (decide (pulse_us = original), { channel with pulse_us := pulse_us })

/-! ## C strings and the libc functions used by protocol.c -/

/-- The bytes of an ASCII text. -/
def ascii (s : String) : List Nat := s.toList.map Char.toNat

/-- What a `char *` denotes: the bytes before the first NUL. -/
def cstring (s : List Nat) : List Nat := s.takeWhile (fun c => c != 0)

/-- The libc function `toupper` in the C locale. -/
def toupper (c : Nat) : Nat := if 97 ≤ c ∧ c ≤ 122 then c - 32 else c

/-- The function `str_toupper` of protocol.c. -/
def str_toupper (str : List Nat) : List Nat := str.map toupper

/-- The libc function `isspace` in the C locale. -/
def isspace (c : Nat) : Bool := c == 32 || (9 ≤ c && c ≤ 13)

/-- The libc function `isdigit`. -/
def isdigit (c : Nat) : Bool := 48 ≤ c && c ≤ 57

/-- One call of `strtok(_, " ")` on the text still to be scanned: the next token
and the text after the delimiter that ended it, or `none` when only delimiters
are left. -/
def strtok (s : List Nat) : Option (List Nat × List Nat) :=
  match s.dropWhile (fun c => c == 32) with
  | [] => none
  | c :: cs =>
    some ((c :: cs).takeWhile (fun c => c != 32),
          ((c :: cs).dropWhile (fun c => c != 32)).drop 1)

/-- The digit loop of `strtol` in base 10: accumulates decimal digits, stops at
the first byte that is not a digit. -/
def atoi_digits (acc : Int) : List Nat → Int
  | [] => acc
  | c :: cs => if isdigit c then atoi_digits (acc * 10 + (c - 48 : Nat)) cs else acc

/-- The value of `LONG_MIN` where `long` has 64 bits. -/
def LONG_MIN : Int := -9223372036854775808

/-- The value of `LONG_MAX` where `long` has 64 bits. -/
def LONG_MAX : Int := 9223372036854775807

/-- The libc function `strtol(s, NULL, 10)`: leading white space, an optional
sign, decimal digits; a value that does not fit `long` is replaced by
`LONG_MIN` or `LONG_MAX`. -/
def strtol (s : List Nat) : Int :=
  let value :=
    match s.dropWhile isspace with
    | 45 :: cs => - atoi_digits 0 cs
    | 43 :: cs => atoi_digits 0 cs
    | cs => atoi_digits 0 cs
  if value < LONG_MIN then LONG_MIN
  else if value > LONG_MAX then LONG_MAX
  else value

/-- The libc function `atoi`, as glibc defines it: `(int) strtol(s, NULL, 10)`.
A numeral within `int` gives its value; a numeral within `long` is cut to its
low 32 bits; beyond that the saturated `long` is cut, which gives 0 for
`LONG_MIN` and -1 for `LONG_MAX`. -/
def atoi (s : List Nat) : Int := toI32 (strtol s)

/-- Decimal digits of a natural number, most significant first, in front of
`acc`. -/
def utoa_aux : Nat → Nat → List Nat → List Nat
  | 0, _, acc => acc
  | fuel + 1, n, acc =>
    if n < 10 then (48 + n) :: acc
    else utoa_aux fuel (n / 10) ((48 + n % 10) :: acc)

/-- What `printf("%u")` prints for a non-negative value. -/
def utoa (n : Nat) : List Nat := utoa_aux (n + 1) n []

/-- What `printf("%d")` prints; also the decimal text of an integer argument on
a command line. -/
def itoa (x : Int) : List Nat :=
  if x < 0 then 45 :: utoa (-x).toNat else utoa x.toNat

/-- Tokens joined by single spaces. -/
def unwords : List (List Nat) → List Nat
  | [] => []
  | [t] => t
  | t :: t2 :: ts => t ++ 32 :: unwords (t2 :: ts)

/-! ## protocol.h / protocol.c -/

inductive CommandType where
  | CMD_SETUP
  | CMD_ENABLE
  | CMD_DISABLE
  | CMD_SET_RANGE
  | CMD_SET_PULSE
  | CMD_GET_RANGE
  | CMD_GET_PULSE
  | CMD_GET_STATE
  | CMD_INVALID
deriving DecidableEq, Repr

inductive ResponseType where
  | RESP_OK
  | RESP_ERROR
  | RESP_RANGE
  | RESP_PULSE
  | RESP_STATE
deriving DecidableEq, Repr

/-- The struct `Command`. `channel` and `setup_gpio` are `uint8_t`, the range
and pulse members are `uint16_t`. The members of the C union `data` are kept as
separate fields: each command type only ever reads the member its parser
branch wrote. -/
structure Command where
  type : CommandType
  channel : Int
  setup_gpio : Int
  range_min : Int
  range_max : Int
  pulse_value : Int
deriving DecidableEq, Repr

/-- The struct `Response`; the members of the union `data` as separate fields. -/
structure Response where
  type : ResponseType
  error_message : List Nat
  range_min : Int
  range_max : Int
  pulse_value : Int
  state_gpio : Int
  state_enabled : Bool
deriving DecidableEq, Repr

/-- The failure exit of `parse_command`: `cmd->type = CMD_INVALID; return false`. -/
def parse_fail (cmd : Command) : Bool × Command :=
  (false, { cmd with type := CommandType.CMD_INVALID })

/-- The function `parse_command` with non-null arguments: return value and the
command structure as left behind (`cmd` is the structure's content on entry). -/
def parse_command (buffer : List Nat) (cmd : Command) : Bool × Command :=
  let work := (cstring buffer).take (MAX_COMMAND_LENGTH - 1)
  let work := if work.getLast? = some 10 then work.dropLast else work
  let work := str_toupper work
  match strtok work with
  | none => parse_fail cmd
  | some (token, rest) =>
    if token = ascii "SETUP" then
      let cmd := { cmd with type := CommandType.CMD_SETUP }
      match strtok rest with
      | none => parse_fail cmd
      | some (token, rest) =>
        let cmd := { cmd with channel := toU8 (atoi token) }
        match strtok rest with
        | none => parse_fail cmd
        | some (token, rest) =>
          if token ≠ ascii "GPIO" then parse_fail cmd
          else
            match strtok rest with
            | none => parse_fail cmd
            | some (token, _) =>
              (true, { cmd with setup_gpio := toU8 (atoi token) })
    else if token = ascii "ENABLE" then
      let cmd := { cmd with type := CommandType.CMD_ENABLE }
      match strtok rest with
      | none => parse_fail cmd
      | some (token, _) => (true, { cmd with channel := toU8 (atoi token) })
    else if token = ascii "DISABLE" then
      let cmd := { cmd with type := CommandType.CMD_DISABLE }
      match strtok rest with
      | none => parse_fail cmd
      | some (token, _) => (true, { cmd with channel := toU8 (atoi token) })
    else if token = ascii "SET" then
      match strtok rest with
      | none => parse_fail cmd
      | some (token, rest) =>
        let cmd := { cmd with channel := toU8 (atoi token) }
        match strtok rest with
        | none => parse_fail cmd
        | some (token, rest) =>
          if token = ascii "RANGE" then
            let cmd := { cmd with type := CommandType.CMD_SET_RANGE }
            match strtok rest with
            | none => parse_fail cmd
            | some (token, rest) =>
              let cmd := { cmd with range_min := toU16 (atoi token) }
              match strtok rest with
              | none => parse_fail cmd
              | some (token, _) =>
                (true, { cmd with range_max := toU16 (atoi token) })
          else if token = ascii "PULSE" then
            let cmd := { cmd with type := CommandType.CMD_SET_PULSE }
            match strtok rest with
            | none => parse_fail cmd
            | some (token, _) =>
              (true, { cmd with pulse_value := toU16 (atoi token) })
          else parse_fail cmd
    else if token = ascii "GET" then
      match strtok rest with
      | none => parse_fail cmd
      | some (token, rest) =>
        let cmd := { cmd with channel := toU8 (atoi token) }
        match strtok rest with
        | none => parse_fail cmd
        | some (token, _) =>
          if token = ascii "RANGE" then
            (true, { cmd with type := CommandType.CMD_GET_RANGE })
          else if token = ascii "PULSE" then
            (true, { cmd with type := CommandType.CMD_GET_PULSE })
          else if token = ascii "STATE" then
            (true, { cmd with type := CommandType.CMD_GET_STATE })
          else parse_fail cmd
    else parse_fail cmd

/-- The text `snprintf` is asked to produce for a response. -/
def response_text (resp : Response) : List Nat :=
  match resp.type with
  | ResponseType.RESP_OK => ascii "OK\n"
  | ResponseType.RESP_ERROR => ascii "ERROR " ++ resp.error_message ++ ascii "\n"
  | ResponseType.RESP_RANGE =>
    ascii "RANGE " ++ utoa resp.range_min.toNat ++ ascii " "
      ++ utoa resp.range_max.toNat ++ ascii "\n"
  | ResponseType.RESP_PULSE => ascii "PULSE " ++ utoa resp.pulse_value.toNat ++ ascii "\n"
  | ResponseType.RESP_STATE =>
    ascii "GPIO " ++ utoa resp.state_gpio.toNat ++ ascii " ENABLE "
      ++ itoa (if resp.state_enabled then 1 else 0) ++ ascii "\n"

/-- The function `format_response` with non-null arguments: return value and
the content of `buffer` afterwards. `snprintf` stores at most
`buffer_size - 1` bytes of the text and returns the full length of the text. -/
def format_response (resp : Response) (buffer : List Nat) (buffer_size : Nat) :
    Int × List Nat :=
  if buffer_size = 0 then (-1, buffer)
  else
    let text := response_text resp
    let written : Int := text.length
    let buffer := text.take (buffer_size - 1)
    if written < 0 ∨ written ≥ buffer_size then (-1, buffer) else (written, buffer)

/-! ## piservod.c: the command handler -/

/-- Content given to a structure the C code leaves uninitialised; every field
that is read is written first. -/
def blank_command : Command :=
  { type := CommandType.CMD_INVALID, channel := 0, setup_gpio := 0,
    range_min := 0, range_max := 0, pulse_value := 0 }

/-- Content given to the uninitialised `Response` of `handle_command`. -/
def blank_response : Response :=
  { type := ResponseType.RESP_OK, error_message := [], range_min := 0,
    range_max := 0, pulse_value := 0, state_gpio := 0, state_enabled := false }

/-- An all-zero channel, as `memset` leaves it. -/
def zero_channel : ServoChannel :=
  { gpio := 0, enabled := 0, min_us := 0, max_us := 0, pulse_us := 0 }

/-- The controller as `main` sets it up before the first command:
`memset(&controller, 0, sizeof(controller))`, then `num_channels = 8`
(`pwm_init` does not touch the channels). -/
def startup : ServoController :=
  { channels := List.replicate 8 zero_channel, num_channels := MAX_SERVO_CHANNELS }

/-- The element `controller.channels[i]`. -/
def channel_at (controller : ServoController) (i : Nat) : ServoChannel :=
  controller.channels.getD i zero_channel

/-- Assignment through the pointer `ch = &controller.channels[i]`. -/
def store_channel (controller : ServoController) (i : Nat) (ch : ServoChannel) :
    ServoController :=
  { controller with channels := controller.channels.set i ch }

/-- A response of type `RESP_ERROR` with
`snprintf(resp.data.error.message, MAX_ERROR_MESSAGE, msg)`. -/
def error_response (msg : String) : Response :=
  { blank_response with
    type := ResponseType.RESP_ERROR
    error_message := (ascii msg).take (MAX_ERROR_MESSAGE - 1) }

/-- What one call of `handle_command` leaves behind: the controller, the bytes
written to the client and the register operations issued. -/
structure Handled where
  controller : ServoController
  reply : List Nat
  hw : List HwOp
deriving DecidableEq, Repr

/-- The tail of `handle_command`: `format_response` into the 256-byte
`resp_buffer`, then `write(client_fd, resp_buffer, strlen(resp_buffer))`. -/
def send_response (controller : ServoController) (resp : Response) (hw : List HwOp) :
    Handled :=
  let resp_buffer := (format_response resp [] MAX_RESPONSE_LENGTH).2
  { controller := controller, reply := cstring resp_buffer, hw := hw }

/-- The function `handle_command` on the global controller. -/
def handle_command (controller : ServoController) (buffer : List Nat) : Handled :=
  let parsed := parse_command buffer blank_command
  let cmd := parsed.2
  if !parsed.1 then send_response controller (error_response "Invalid command") []
  else if cmd.channel ≥ MAX_SERVO_CHANNELS then
    send_response controller (error_response "Invalid channel") []
  else
    let i := cmd.channel.toNat
    let ch := channel_at controller i
    match cmd.type with
    | CommandType.CMD_SETUP =>
      if cmd.setup_gpio > MAX_GPIO_PIN then
        send_response controller (error_response "Invalid GPIO pin") []
      else
        let ch := { ch with gpio := cmd.setup_gpio }
        let ch := { ch with pulse_us := SERVO_NEUTRAL_US }
        let ch := { ch with min_us := SERVO_MIN_US }
        let ch := { ch with max_us := SERVO_MAX_US }
        let ch := { ch with enabled := 0 }
        send_response (store_channel controller i ch)
          { blank_response with type := ResponseType.RESP_OK } (gpio_set_output ch.gpio)
    | CommandType.CMD_ENABLE =>
      if ch.gpio = 0 then
        send_response controller (error_response "Channel not configured") []
      else
        let ch := { ch with enabled := 1 }
        send_response (store_channel controller i ch)
          { blank_response with type := ResponseType.RESP_OK } []
    | CommandType.CMD_DISABLE =>
      let ch := { ch with enabled := 0 }
      send_response (store_channel controller i ch)
        { blank_response with type := ResponseType.RESP_OK } []
    | CommandType.CMD_SET_RANGE =>
      if cmd.range_min ≥ cmd.range_max then
        send_response controller
          (error_response "Invalid range: min must be less than max") []
      else
        let ch := { ch with min_us := toI16 cmd.range_min }
        let ch := { ch with max_us := toI16 cmd.range_max }
        send_response (store_channel controller i ch)
          { blank_response with type := ResponseType.RESP_OK } []
    | CommandType.CMD_SET_PULSE =>
      if ch.gpio = 0 then
        send_response controller (error_response "Channel not configured") []
      else if cmd.pulse_value < ch.min_us ∨ cmd.pulse_value > ch.max_us then
        send_response controller (error_response "Pulse value out of range") []
      else
        let ch := { ch with pulse_us := toI16 cmd.pulse_value }
        send_response (store_channel controller i ch)
          { blank_response with type := ResponseType.RESP_OK } []
    | CommandType.CMD_GET_RANGE =>
      send_response controller
        { blank_response with
          type := ResponseType.RESP_RANGE
          range_min := toU16 ch.min_us
          range_max := toU16 ch.max_us } []
    | CommandType.CMD_GET_PULSE =>
      send_response controller
        { blank_response with
          type := ResponseType.RESP_PULSE
          pulse_value := toU16 ch.pulse_us } []
    | CommandType.CMD_GET_STATE =>
      send_response controller
        { blank_response with
          type := ResponseType.RESP_STATE
          state_gpio := ch.gpio
          state_enabled := decide (ch.enabled ≠ 0) } []
    | CommandType.CMD_INVALID =>
      send_response controller (error_response "Unknown command") []

/-- The controller after a sequence of command lines, each handled by
`handle_command` in turn. -/
def run_commands (controller : ServoController) : List (List Nat) → ServoController
  | [] => controller
  | line :: rest => run_commands (handle_command controller line).controller rest

/-! ## piservod.c: data read from a client -/

/-- What one call of `handle_client_data` leaves behind: the controller, the
client's buffer (`client_buffers[slot]` up to `client_buffer_lens[slot]`),
whether the client is still connected, the lines that were passed to
`handle_command`, in order, and what each of these calls left behind (its
reply and register operations). -/
structure ClientData where
  controller : ServoController
  buffer : List Nat
  connected : Bool
  lines : List (List Nat)
  calls : List Handled
deriving DecidableEq, Repr

/-- The `while ((newline = strchr(line_start, '\n')) != NULL)` loop of
`handle_client_data`. `line_start` is the memory from the pointer of that name
to the end of the buffered bytes; the C string there ends at the first NUL.
Each turn consumes at least the newline, so a fuel of the length of
`line_start` is enough. Result: the controller, the lines handled, what the
calls left behind, and the memory at `line_start` after the loop. -/
def client_loop :
    Nat → ServoController → List Nat →
      ServoController × List (List Nat) × List Handled × List Nat
  | 0, controller, line_start => (controller, [], [], line_start)
  | fuel + 1, controller, line_start =>
    if 10 ∈ cstring line_start then
      let line := line_start.takeWhile (fun c => c != 10)
      let h := handle_command controller line
      let r := client_loop fuel h.controller (line_start.drop (line.length + 1))
      (r.1, line :: r.2.1, h :: r.2.2.1, r.2.2.2)
    else (controller, [], [], line_start)

/-- The function `handle_client_data` for one slot. `buffer` is the content of
the client's buffer (never more than 255 bytes), `data` what `read` returns: at
most 255 bytes, none when the client has gone or the read failed. -/
def handle_client_data (controller : ServoController) (buffer data : List Nat) :
    ClientData :=
  let data := data.take (MAX_COMMAND_LENGTH - 1)
  let bytes_read := data.length
  if bytes_read = 0 then
    { controller := controller, buffer := [], connected := false, lines := [], calls := [] }
  else
    let available := MAX_COMMAND_LENGTH - buffer.length - 1
    let to_copy := if bytes_read < available then bytes_read else available
    let buf := buffer ++ data.take to_copy
    let r := client_loop buf.length controller buf
    { controller := r.1, buffer := cstring r.2.2.2, connected := true,
      lines := r.2.1, calls := r.2.2.1 }

/-! ## pwm.c: one frame -/

/-- Step 1 of `pwm_run_frame`: every enabled channel with a valid pin is driven
high, in channel order. -/
def pwm_set_high (controller : ServoController) : List HwOp :=
  (List.range controller.num_channels.toNat).flatMap fun i =>
    let ch := channel_at controller i
    if ch.enabled ≠ 0 ∧ ch.gpio ≤ MAX_GPIO_PIN then gpio_set ch.gpio else []

/-- The body of the inner loop of the bubble sort: compare the entries `j` and
`j + 1` of `sorted` by pulse width, swap them when out of order. -/
def bubble_step (controller : ServoController) (sorted : List Nat) (j : Nat) : List Nat :=
  let a := sorted.getD j 0
  let b := sorted.getD (j + 1) 0
  if (channel_at controller a).pulse_us > (channel_at controller b).pulse_us then
    (sorted.set j b).set (j + 1) a
  else sorted

/-- The bubble sort of `pwm_run_frame` on the index array `sorted`. -/
def bubble_sort (controller : ServoController) (sorted : List Nat) : List Nat :=
  let n := controller.num_channels.toNat
  (List.range (n - 1)).foldl
    (fun sorted i => (List.range (n - i - 1)).foldl (bubble_step controller) sorted)
    sorted

/-- The index array after the sort: `sorted[i] = i`, then the bubble sort. -/
def sorted_channels (controller : ServoController) : List Nat :=
  bubble_sort controller (List.range controller.num_channels.toNat)

/-- Step 3 of `pwm_run_frame`: walk the sorted channels with the running
baseline `prev_pulse_us` (a `uint32_t`). -/
def pwm_clear_loop (controller : ServoController) : List Nat → Int → List HwOp
  | [], _ => []
  | id :: rest, prev_pulse_us =>
    let ch := channel_at controller id
    if ch.enabled = 0 then pwm_clear_loop controller rest prev_pulse_us
    else
      let delta_us := toU32 (ch.pulse_us - prev_pulse_us)
      (if delta_us > 0 then [HwOp.sleep delta_us] else [])
        ++ gpio_clear ch.gpio
        ++ pwm_clear_loop controller rest (toU32 ch.pulse_us)

/-- The function `pwm_run_frame` once the timer has fired (the timer is set up
by `pwm_init`; the daemon does not start otherwise): the trace of the frame. -/
def pwm_run_frame (controller : ServoController) : List HwOp :=
  pwm_set_high controller ++ pwm_clear_loop controller (sorted_channels controller) 0

/-! ## Vocabulary of the statements -/

/-- All bytes are decimal digits. -/
def Digits (l : List Nat) : Prop := ∀ x ∈ l, 48 ≤ x ∧ x ≤ 57

/-- A byte that the preprocessing of `parse_command` leaves alone and that does
not end a token: not NUL, not a newline, not a space, not a lower-case letter. -/
def plain_byte (x : Nat) : Bool :=
  x != 0 && x != 10 && x != 32 && !(97 ≤ x && x ≤ 122)

/-- A non-empty run of plain bytes. -/
def Token (t : List Nat) : Prop := t ≠ [] ∧ ∀ x ∈ t, plain_byte x = true

instance (t : List Nat) : Decidable (Token t) := by
  unfold Token
  infer_instance

/-- A byte that the working copy of `parse_command` keeps as it is. -/
def kept_byte (x : Nat) : Prop := x ≠ 0 ∧ x ≠ 10 ∧ toupper x = x

/-- The value fits the C type `int`. -/
def in_int (x : Int) : Prop := -2147483648 ≤ x ∧ x ≤ 2147483647

instance (x : Int) : Decidable (in_int x) := by
  unfold in_int
  infer_instance

/-- The line `SETUP <c> GPIO <p>`. -/
def line_setup (c p : Int) : List Nat :=
  unwords [ascii "SETUP", itoa c, ascii "GPIO", itoa p]

/-- The line `ENABLE <c>`. -/
def line_enable (c : Int) : List Nat := unwords [ascii "ENABLE", itoa c]

/-- The line `DISABLE <c>`. -/
def line_disable (c : Int) : List Nat := unwords [ascii "DISABLE", itoa c]

/-- The line `SET <c> RANGE <a> <b>`. -/
def line_set_range (c a b : Int) : List Nat :=
  unwords [ascii "SET", itoa c, ascii "RANGE", itoa a, itoa b]

/-- The line `SET <c> PULSE <v>`. -/
def line_set_pulse (c v : Int) : List Nat :=
  unwords [ascii "SET", itoa c, ascii "PULSE", itoa v]

/-- The line `GET <c> RANGE`. -/
def line_get_range (c : Int) : List Nat := unwords [ascii "GET", itoa c, ascii "RANGE"]

/-- The line `GET <c> PULSE`. -/
def line_get_pulse (c : Int) : List Nat := unwords [ascii "GET", itoa c, ascii "PULSE"]

/-- The line `GET <c> STATE`. -/
def line_get_state (c : Int) : List Nat := unwords [ascii "GET", itoa c, ascii "STATE"]

/-- The replies written to the client for a sequence of command lines, each
handled by `handle_command` in turn, in order. -/
def run_replies (controller : ServoController) : List (List Nat) → List (List Nat)
  | [] => []
  | line :: rest =>
    (handle_command controller line).reply
      :: run_replies (handle_command controller line).controller rest

/-- The working copy that `parse_command` hands to `strtok`: at most 255 bytes
of the line, a trailing newline removed, upper-cased. -/
def working_copy (buffer : List Nat) : List Nat :=
  str_toupper
    (if ((cstring buffer).take (MAX_COMMAND_LENGTH - 1)).getLast? = some 10
     then ((cstring buffer).take (MAX_COMMAND_LENGTH - 1)).dropLast
     else (cstring buffer).take (MAX_COMMAND_LENGTH - 1))

/-- The tokens that repeated `strtok(_, " ")` calls yield, at most `fuel` of
them. -/
def tokens_aux : Nat → List Nat → List (List Nat)
  | 0, _ => []
  | fuel + 1, s =>
    match strtok s with
    | none => []
    | some (t, rest) => t :: tokens_aux fuel rest

/-- All tokens of a text: the maximal runs of bytes other than the space. -/
def tokens (s : List Nat) : List (List Nat) := tokens_aux (s.length + 1) s

/-- The token list is not one of the eight command forms: it is empty, starts
with an unrecognized keyword, has an unrecognized `SET`/`GET` sub-command, is a
`SETUP` whose third token is not `GPIO`, or lacks a required argument. -/
def malformed (ts : List (List Nat)) : Bool :=
  match ts with
  | [] => true
  | kw :: args =>
    if kw = ascii "SETUP" then
      match args with
      | _ :: g :: _ :: _ => decide (g ≠ ascii "GPIO")
      | _ => true
    else if kw = ascii "ENABLE" ∨ kw = ascii "DISABLE" then
      match args with
      | _ :: _ => false
      | [] => true
    else if kw = ascii "SET" then
      match args with
      | _ :: sub :: rest =>
        if sub = ascii "RANGE" then
          match rest with
          | _ :: _ :: _ => false
          | _ => true
        else if sub = ascii "PULSE" then
          match rest with
          | _ :: _ => false
          | [] => true
        else true
      | _ => true
    else if kw = ascii "GET" then
      match args with
      | _ :: sub :: _ =>
        decide (sub ≠ ascii "RANGE" ∧ sub ≠ ascii "PULSE" ∧ sub ≠ ascii "STATE")
      | _ => true
    else true

/-- Whether channel `i` is enabled (`ch->enabled` is non-zero). -/
def is_enabled (controller : ServoController) (i : Nat) : Bool :=
  decide ((channel_at controller i).enabled ≠ 0)

/-- The pin of channel `i`. -/
def pin_of (controller : ServoController) (i : Nat) : Int := (channel_at controller i).gpio

/-- The pulse width of channel `i`. -/
def pulse_of (controller : ServoController) (i : Nat) : Int :=
  (channel_at controller i).pulse_us

/-- The pins driven high in a trace, in order. -/
def high_pins : List HwOp → List Int
  | [] => []
  | HwOp.set_high pin :: rest => pin :: high_pins rest
  | _ :: rest => high_pins rest

/-- The pins driven low in a trace, in order. -/
def low_pins : List HwOp → List Int
  | [] => []
  | HwOp.set_low pin :: rest => pin :: low_pins rest
  | _ :: rest => low_pins rest

/-- The sleeps of a trace, in order. -/
def sleeps : List HwOp → List Int
  | [] => []
  | HwOp.sleep us :: rest => us :: sleeps rest
  | _ :: rest => sleeps rest

/-- The pin-low events of a trace, each with the sum of the sleeps issued
before it, counted from `t`. -/
def low_times : List HwOp → Int → List (Int × Int)
  | [], _ => []
  | HwOp.sleep us :: rest, t => low_times rest (t + us)
  | HwOp.set_low pin :: rest, t => (pin, t) :: low_times rest t
  | _ :: rest, t => low_times rest t

/-- The other case of a letter; any other byte unchanged. -/
def swap_case (c : Nat) : Nat :=
  if 97 ≤ c ∧ c ≤ 122 then c - 32 else if 65 ≤ c ∧ c ≤ 90 then c + 32 else c

/-- The text with the case of its letters changed at the flagged positions. -/
def recase : List Bool → List Nat → List Nat
  | _, [] => []
  | [], c :: cs => c :: cs
  | f :: fs, c :: cs => (if f then swap_case c else c) :: recase fs cs

/-- Step 3 of the frame as the specification describes it: for each enabled
channel sleep for `pulse_us − baseline`, computed on the integers without any
32-bit wrap, drive its pin low, and make `pulse_us` the new baseline. -/
def pwm_clear_loop_exact (controller : ServoController) : List Nat → Int → List HwOp
  | [], _ => []
  | id :: rest, baseline =>
    let ch := channel_at controller id
    if ch.enabled = 0 then pwm_clear_loop_exact controller rest baseline
    else
      (if ch.pulse_us - baseline > 0 then [HwOp.sleep (ch.pulse_us - baseline)] else [])
        ++ gpio_clear ch.gpio
        ++ pwm_clear_loop_exact controller rest ch.pulse_us

/-- What holds of every controller that command lines can produce: 8 channels,
valid pins, pulse widths that are non-negative `int16_t` values and upper range
bounds that are `int16_t` values. -/
def reachable_bounds (s : ServoController) : Prop :=
  s.num_channels = 8 ∧
  ∀ i : Nat, (channel_at s i).gpio ≤ 27 ∧
    0 ≤ (channel_at s i).pulse_us ∧ (channel_at s i).pulse_us ≤ 32767 ∧
    (channel_at s i).max_us ≤ 32767

/-- The five forms of a reply line of the protocol, numbers in decimal. -/
def well_formed_reply (r : List Nat) : Prop :=
  r = ascii "OK\n" ∨
  (∃ msg : List Nat, 10 ∉ msg ∧ r = ascii "ERROR " ++ msg ++ ascii "\n") ∨
  (∃ a b : Nat, r = ascii "RANGE " ++ utoa a ++ ascii " " ++ utoa b ++ ascii "\n") ∨
  (∃ v : Nat, r = ascii "PULSE " ++ utoa v ++ ascii "\n") ∨
  (∃ p e : Nat, e ≤ 1 ∧
    r = ascii "GPIO " ++ utoa p ++ ascii " ENABLE " ++ utoa e ++ ascii "\n")

/-- A well-formed reply that ends in a newline and has no other newline. -/
def one_line_reply (r : List Nat) : Prop :=
  well_formed_reply r ∧ r.count 10 = 1 ∧ r.getLast? = some 10

/-- The newline-terminated lines of a text, without their newlines and in
order, and the text after the last newline. -/
def split_lines : List Nat → List (List Nat) × List Nat
  | [] => ([], [])
  | c :: cs =>
    if c = 10 then ([] :: (split_lines cs).1, (split_lines cs).2)
    else
      match (split_lines cs).1 with
      | [] => ([], c :: (split_lines cs).2)
      | l :: ls => ((c :: l) :: ls, (split_lines cs).2)

/-! ## Decimal text: what `atoi` reads back from `utoa` and `itoa` -/

theorem digits_cons {d : Nat} {l : List Nat} (hd : 48 ≤ d ∧ d ≤ 57) (hl : Digits l) :
    Digits (d :: l) := by
  intro x hx
  rcases List.mem_cons.mp hx with rfl | hx
  · exact hd
  · exact hl x hx

theorem utoa_aux_digits (fuel n : Nat) (acc : List Nat) (h : Digits acc) :
    Digits (utoa_aux fuel n acc) := by
  induction fuel generalizing n acc with
  | zero => simpa [utoa_aux] using h
  | succ f ih =>
    unfold utoa_aux
    split_ifs with hn
    · exact digits_cons (by omega) h
    · exact ih _ _ (digits_cons (by omega) h)

theorem utoa_aux_ne_nil (fuel n : Nat) (acc : List Nat) (h : acc ≠ [] ∨ 0 < fuel) :
    utoa_aux fuel n acc ≠ [] := by
  induction fuel generalizing n acc with
  | zero =>
    rcases h with h | h
    · simpa [utoa_aux] using h
    · omega
  | succ f ih =>
    unfold utoa_aux
    split_ifs with hn
    · simp
    · exact ih _ _ (Or.inl (by simp))

theorem utoa_digits (n : Nat) : Digits (utoa n) :=
  utoa_aux_digits _ _ _ (by intro x hx; simp at hx)

theorem utoa_ne_nil (n : Nat) : utoa n ≠ [] :=
  utoa_aux_ne_nil _ _ _ (Or.inr (Nat.succ_pos n))

theorem utoa_aux_length (fuel n k : Nat) (acc : List Nat) (hk : n < 10 ^ (k + 1)) :
    (utoa_aux fuel n acc).length ≤ acc.length + (k + 1) := by
  induction fuel generalizing n k acc with
  | zero => simp [utoa_aux]
  | succ f ih =>
    unfold utoa_aux
    split_ifs with hn
    · simp
    · cases k with
      | zero => simp at hk; omega
      | succ k =>
        have h10 : n / 10 < 10 ^ (k + 1) := by
          apply Nat.div_lt_of_lt_mul
          rw [pow_succ] at hk
          omega
        have := ih (n / 10) k ((48 + n % 10) :: acc) h10
        simp at this
        omega

theorem utoa_length (n k : Nat) (hk : n < 10 ^ (k + 1)) : (utoa n).length ≤ k + 1 := by
  have := utoa_aux_length (n + 1) n k [] hk
  simpa [utoa] using this

theorem atoi_digits_utoa_aux (fuel n : Nat) (rest : List Nat) (h : n < fuel) :
    atoi_digits 0 (utoa_aux fuel n rest) = atoi_digits n rest := by
  induction fuel generalizing n rest with
  | zero => omega
  | succ f ih =>
    unfold utoa_aux
    split_ifs with hn
    · have hd : isdigit (48 + n) = true := by simp [isdigit]; omega
      simp [atoi_digits, hd]
    · rw [ih (n / 10) _ (by omega)]
      have hd : isdigit (48 + n % 10) = true := by simp [isdigit]; omega
      simp only [atoi_digits, hd, if_true]
      congr 1
      simp only [Nat.add_sub_cancel_left]
      omega

theorem atoi_digits_utoa (n : Nat) : atoi_digits 0 (utoa n) = n := by
  simp [utoa, atoi_digits_utoa_aux, atoi_digits]

theorem strtol_digit_head (d : Nat) (tl : List Nat) (hd : 48 ≤ d ∧ d ≤ 57)
    (h1 : LONG_MIN ≤ atoi_digits 0 (d :: tl)) (h2 : atoi_digits 0 (d :: tl) ≤ LONG_MAX) :
    strtol (d :: tl) = atoi_digits 0 (d :: tl) := by
  have hs : isspace d = false := by
    simp [isspace]
    omega
  have hdrop : (d :: tl).dropWhile isspace = d :: tl := by simp [List.dropWhile, hs]
  have hval : (match (d :: tl) with
      | 45 :: cs => - atoi_digits 0 cs
      | 43 :: cs => atoi_digits 0 cs
      | cs => atoi_digits 0 cs) = atoi_digits 0 (d :: tl) := by
    split
    · rename_i heq
      injection heq with h1 _
      omega
    · rename_i heq
      injection heq with h1 _
      omega
    · rfl
  unfold strtol
  simp only []
  rw [hdrop, hval, if_neg (by omega), if_neg (by omega)]

theorem strtol_utoa (n : Nat) (h : (n : Int) ≤ LONG_MAX) : strtol (utoa n) = n := by
  have hne := utoa_ne_nil n
  have hdig := utoa_digits n
  have hval := atoi_digits_utoa n
  cases hu : utoa n with
  | nil => exact absurd hu hne
  | cons d tl =>
    rw [hu] at hval
    rw [strtol_digit_head d tl (by rw [hu] at hdig; exact hdig d (List.mem_cons_self _ _))
      (by rw [hval]; unfold LONG_MIN; omega) (by rw [hval]; exact h)]
    exact hval

theorem strtol_itoa (x : Int) (h1 : LONG_MIN ≤ x) (h2 : x ≤ LONG_MAX) :
    strtol (itoa x) = x := by
  unfold itoa
  split_ifs with hx
  · have hdrop : (45 :: utoa (-x).toNat).dropWhile isspace = 45 :: utoa (-x).toNat := by
      simp [List.dropWhile, isspace]
    unfold strtol
    simp only []
    rw [hdrop]
    simp only [atoi_digits_utoa]
    have hnat : (((-x).toNat : Nat) : Int) = -x := Int.toNat_of_nonneg (by omega)
    rw [hnat]
    rw [neg_neg]
    unfold LONG_MIN LONG_MAX at *
    rw [if_neg (by omega), if_neg (by omega)]
  · rw [strtol_utoa _ (by omega)]
    omega

/-- A numeral within `int` is read back by `atoi` as its value. -/
theorem atoi_itoa (x : Int) (hx : in_int x) : atoi (itoa x) = x := by
  unfold in_int at hx
  unfold atoi
  rw [strtol_itoa x (by unfold LONG_MIN; omega) (by unfold LONG_MAX; omega)]
  unfold toI32
  omega

/-- A numeral beyond `long` is read as the saturated value cut to `int`, and a
numeral within `long` as its low 32 bits. -/
theorem atoi_out_of_range :
    atoi (ascii "9223372036854775808") = -1 ∧
    atoi (ascii "-9223372036854775809") = 0 ∧
    atoi (ascii "4294967296") = 0 ∧
    atoi (ascii "2147483648") = -2147483648 ∧
    toU8 (atoi (ascii "-9223372036854775809")) = 0 := by
  decide

theorem itoa_length (x : Int) (k : Nat) (h1 : -(10 ^ (k + 1) : Int) < x) (h2 : x < 10 ^ (k + 1)) :
    (itoa x).length ≤ k + 2 := by
  unfold itoa
  split_ifs with hx
  · have : (-x).toNat < 10 ^ (k + 1) := by
      zify
      rw [Int.toNat_of_nonneg (by omega)]
      omega
    have := utoa_length _ k this
    simp
    omega
  · have : x.toNat < 10 ^ (k + 1) := by
      zify
      rw [Int.toNat_of_nonneg (by omega)]
      omega
    have := utoa_length _ k this
    omega

/-! ## Command lines built from tokens -/

theorem plain_of_digit {x : Nat} (h : 48 ≤ x ∧ x ≤ 57) : plain_byte x = true := by
  simp [plain_byte]
  omega

theorem token_utoa (n : Nat) : Token (utoa n) :=
  ⟨utoa_ne_nil n, fun x hx => plain_of_digit (utoa_digits n x hx)⟩

theorem token_itoa (x : Int) : Token (itoa x) := by
  unfold itoa
  split_ifs
  · refine ⟨by simp, fun y hy => ?_⟩
    rcases List.mem_cons.mp hy with rfl | hy
    · decide
    · exact (token_utoa _).2 y hy
  · exact token_utoa _

theorem takeWhile_all (p : Nat → Bool) (l : List Nat) (h : ∀ x ∈ l, p x = true) :
    l.takeWhile p = l := by
  induction l with
  | nil => rfl
  | cons a l ih =>
    simp only [List.takeWhile, h a (List.mem_cons_self _ _)]
    rw [ih (fun x hx => h x (List.mem_cons_of_mem _ hx))]

theorem takeWhile_stop (p : Nat → Bool) (l r : List Nat) (b : Nat)
    (h : ∀ x ∈ l, p x = true) (hb : p b = false) :
    (l ++ b :: r).takeWhile p = l := by
  induction l with
  | nil => simp [List.takeWhile, hb]
  | cons a l ih =>
    rw [List.cons_append, List.takeWhile_cons_of_pos (h a (List.mem_cons_self _ _)),
      ih (fun x hx => h x (List.mem_cons_of_mem _ hx))]

theorem dropWhile_all (p : Nat → Bool) (l : List Nat) (h : ∀ x ∈ l, p x = true) :
    l.dropWhile p = [] := by
  induction l with
  | nil => rfl
  | cons a l ih =>
    simp only [List.dropWhile, h a (List.mem_cons_self _ _)]
    exact ih (fun x hx => h x (List.mem_cons_of_mem _ hx))

theorem dropWhile_stop (p : Nat → Bool) (l r : List Nat) (b : Nat)
    (h : ∀ x ∈ l, p x = true) (hb : p b = false) :
    (l ++ b :: r).dropWhile p = b :: r := by
  induction l with
  | nil => simp [List.dropWhile, hb]
  | cons a l ih =>
    rw [List.cons_append, List.dropWhile_cons_of_pos (h a (List.mem_cons_self _ _))]
    exact ih (fun x hx => h x (List.mem_cons_of_mem _ hx))

theorem plain_ne_space {x : Nat} (h : plain_byte x = true) : (x != 32) = true := by
  simp [plain_byte] at h
  simp
  omega

/-- The first `strtok` call on a token followed by nothing. -/
theorem strtok_single (t : List Nat) (ht : Token t) : strtok t = some (t, []) := by
  obtain ⟨hne, hall⟩ := ht
  cases t with
  | nil => exact absurd rfl hne
  | cons c cs =>
    have hc : (c == 32) = false := by
      have := plain_ne_space (hall c (List.mem_cons_self _ _))
      simpa using this
    have h1 : (c :: cs).dropWhile (fun c => c == 32) = c :: cs := by
      simp [List.dropWhile, hc]
    unfold strtok
    rw [h1]
    simp only
    rw [takeWhile_all _ _ (fun x hx => plain_ne_space (hall x hx)),
      dropWhile_all _ _ (fun x hx => plain_ne_space (hall x hx))]
    rfl

/-- The `strtok` call on a token followed by a space and more text. -/
theorem strtok_more (t r : List Nat) (ht : Token t) :
    strtok (t ++ 32 :: r) = some (t, r) := by
  obtain ⟨hne, hall⟩ := ht
  cases t with
  | nil => exact absurd rfl hne
  | cons c cs =>
    have hc : (c == 32) = false := by
      have := plain_ne_space (hall c (List.mem_cons_self _ _))
      simpa using this
    have h1 : (c :: cs ++ 32 :: r).dropWhile (fun c => c == 32) = c :: (cs ++ 32 :: r) := by
      simp [List.dropWhile, hc]
    unfold strtok
    rw [h1]
    simp only
    have h2 : c :: (cs ++ 32 :: r) = (c :: cs) ++ 32 :: r := rfl
    rw [h2, takeWhile_stop _ _ _ _ (fun x hx => plain_ne_space (hall x hx)) (by decide),
      dropWhile_stop _ _ _ _ (fun x hx => plain_ne_space (hall x hx)) (by decide)]
    rfl

/-- Each `strtok` call on a line of tokens yields the next token. -/
theorem strtok_unwords (t : List Nat) (ts : List (List Nat)) (ht : Token t) :
    strtok (unwords (t :: ts)) = some (t, unwords ts) := by
  cases ts with
  | nil => exact strtok_single t ht
  | cons t2 ts => exact strtok_more t _ ht

theorem strtok_nil : strtok [] = none := rfl

theorem kept_of_plain {x : Nat} (h : plain_byte x = true) : kept_byte x := by
  simp [plain_byte] at h
  refine ⟨by omega, by omega, ?_⟩
  unfold toupper
  split_ifs with hx
  · omega
  · rfl

theorem kept_unwords (ts : List (List Nat)) (h : ∀ t ∈ ts, Token t) :
    ∀ x ∈ unwords ts, kept_byte x := by
  induction ts with
  | nil => intro x hx; simp [unwords] at hx
  | cons t ts ih =>
    cases ts with
    | nil =>
      intro x hx
      exact kept_of_plain ((h t (List.mem_cons_self _ _)).2 x hx)
    | cons t2 ts =>
      intro x hx
      simp only [unwords, List.mem_append, List.mem_cons] at hx
      rcases hx with hx | rfl | hx
      · exact kept_of_plain ((h t (List.mem_cons_self _ _)).2 x hx)
      · exact ⟨by decide, by decide, by decide⟩
      · exact ih (fun u hu => h u (List.mem_cons_of_mem _ hu)) x hx

/-- The working copy that `parse_command` tokenizes (copy of at most 255 bytes,
trailing newline removed, upper-cased) is the line itself when the line has at
most 255 bytes, none of them NUL, newline or a lower-case letter. -/
theorem working_copy_eq (l : List Nat) (hk : ∀ x ∈ l, kept_byte x) (hlen : l.length ≤ 255) :
    str_toupper
      (if ((cstring l).take (MAX_COMMAND_LENGTH - 1)).getLast? = some 10
       then ((cstring l).take (MAX_COMMAND_LENGTH - 1)).dropLast
       else (cstring l).take (MAX_COMMAND_LENGTH - 1)) = l := by
  have h1 : cstring l = l := by
    unfold cstring
    apply takeWhile_all
    intro x hx
    have := (hk x hx).1
    simpa using this
  have h2 : l.take (MAX_COMMAND_LENGTH - 1) = l := by
    apply List.take_of_length_le
    simpa [MAX_COMMAND_LENGTH] using hlen
  have h3 : l.getLast? ≠ some 10 := by
    intro h
    have hm : (10 : Nat) ∈ l := List.mem_of_getLast?_eq_some h
    exact (hk 10 hm).2.1 rfl
  rw [h1, h2, if_neg h3]
  unfold str_toupper
  conv_rhs => rw [← List.map_id l]
  apply List.map_congr_left
  intro x hx
  exact (hk x hx).2.2

/-! ## The command lines of the protocol and how they parse -/

theorem itoa_length_int (x : Int) (h : in_int x) : (itoa x).length ≤ 11 := by
  unfold in_int at h
  exact itoa_length x 9 (by norm_num; omega) (by norm_num; omega)

/-! Facts about the keywords, by evaluation. -/

theorem token_setup_kw : Token (ascii "SETUP") := by decide

theorem length_setup_kw : (ascii "SETUP").length = 5 := by decide

theorem token_enable_kw : Token (ascii "ENABLE") := by decide

theorem length_enable_kw : (ascii "ENABLE").length = 6 := by decide

theorem token_disable_kw : Token (ascii "DISABLE") := by decide

theorem length_disable_kw : (ascii "DISABLE").length = 7 := by decide

theorem token_set_kw : Token (ascii "SET") := by decide

theorem length_set_kw : (ascii "SET").length = 3 := by decide

theorem token_get_kw : Token (ascii "GET") := by decide

theorem length_get_kw : (ascii "GET").length = 3 := by decide

theorem token_range_kw : Token (ascii "RANGE") := by decide

theorem length_range_kw : (ascii "RANGE").length = 5 := by decide

theorem token_pulse_kw : Token (ascii "PULSE") := by decide

theorem length_pulse_kw : (ascii "PULSE").length = 5 := by decide

theorem token_state_kw : Token (ascii "STATE") := by decide

theorem length_state_kw : (ascii "STATE").length = 5 := by decide

theorem token_gpio_kw : Token (ascii "GPIO") := by decide

theorem length_gpio_kw : (ascii "GPIO").length = 4 := by decide

theorem enable_ne_setup : ascii "ENABLE" ≠ ascii "SETUP" := by decide

theorem disable_ne_setup : ascii "DISABLE" ≠ ascii "SETUP" := by decide

theorem disable_ne_enable : ascii "DISABLE" ≠ ascii "ENABLE" := by decide

theorem set_ne_setup : ascii "SET" ≠ ascii "SETUP" := by decide

theorem set_ne_enable : ascii "SET" ≠ ascii "ENABLE" := by decide

theorem set_ne_disable : ascii "SET" ≠ ascii "DISABLE" := by decide

theorem get_ne_setup : ascii "GET" ≠ ascii "SETUP" := by decide

theorem get_ne_enable : ascii "GET" ≠ ascii "ENABLE" := by decide

theorem get_ne_disable : ascii "GET" ≠ ascii "DISABLE" := by decide

theorem get_ne_set : ascii "GET" ≠ ascii "SET" := by decide

theorem pulse_ne_range : ascii "PULSE" ≠ ascii "RANGE" := by decide

theorem state_ne_range : ascii "STATE" ≠ ascii "RANGE" := by decide

theorem state_ne_pulse : ascii "STATE" ≠ ascii "PULSE" := by decide

/-- The working copy of a line of tokens is the line. -/
theorem working_copy_line (ts : List (List Nat)) (h : ∀ t ∈ ts, Token t)
    (hlen : (unwords ts).length ≤ 255) :
    str_toupper
      (if ((cstring (unwords ts)).take (MAX_COMMAND_LENGTH - 1)).getLast? = some 10
       then ((cstring (unwords ts)).take (MAX_COMMAND_LENGTH - 1)).dropLast
       else (cstring (unwords ts)).take (MAX_COMMAND_LENGTH - 1)) = unwords ts :=
  working_copy_eq _ (kept_unwords ts h) hlen

theorem parse_setup (c p : Int) (hc : in_int c) (hp : in_int p) (cmd : Command) :
    parse_command (line_setup c p) cmd
      = (true, { cmd with
                 type := CommandType.CMD_SETUP
                 channel := toU8 c
                 setup_gpio := toU8 p }) := by
  have lc := itoa_length_int c hc
  have lp := itoa_length_int p hp
  have htok : ∀ t ∈ [ascii "SETUP", itoa c, ascii "GPIO", itoa p], Token t := by
    intro t ht
    simp only [List.mem_cons, List.mem_singleton, List.not_mem_nil, or_false] at ht
    rcases ht with rfl | rfl | rfl | rfl
    · exact token_setup_kw
    · exact token_itoa c
    · exact token_gpio_kw
    · exact token_itoa p
  have hlen : (unwords [ascii "SETUP", itoa c, ascii "GPIO", itoa p]).length ≤ 255 := by
    simp only [unwords, List.length_append, List.length_cons, length_gpio_kw, length_setup_kw]
    omega
  unfold parse_command
  simp only []
  rw [line_setup, working_copy_line _ htok hlen]
  simp only [strtok_unwords _ _ token_gpio_kw, strtok_unwords _ _ token_setup_kw, strtok_unwords _ _ (token_itoa _),
    if_true, ne_eq, not_true_eq_false, if_false, atoi_itoa _ hc, atoi_itoa _ hp]

theorem parse_enable (c : Int) (hc : in_int c) (cmd : Command) :
    parse_command (line_enable c) cmd
      = (true, { cmd with
                 type := CommandType.CMD_ENABLE
                 channel := toU8 c }) := by
  have lc := itoa_length_int c hc
  have htok : ∀ t ∈ [ascii "ENABLE", itoa c], Token t := by
    intro t ht
    simp only [List.mem_cons, List.mem_singleton, List.not_mem_nil, or_false] at ht
    rcases ht with rfl | rfl
    · exact token_enable_kw
    · exact token_itoa c
  have hlen : (unwords [ascii "ENABLE", itoa c]).length ≤ 255 := by
    simp only [unwords, List.length_append, List.length_cons, length_enable_kw]
    omega
  unfold parse_command
  simp only []
  rw [line_enable, working_copy_line _ htok hlen]
  simp only [strtok_unwords _ _ token_enable_kw, strtok_unwords _ _ (token_itoa _),
    if_neg enable_ne_setup, if_true, ne_eq, not_true_eq_false, if_false, atoi_itoa _ hc]

theorem parse_disable (c : Int) (hc : in_int c) (cmd : Command) :
    parse_command (line_disable c) cmd
      = (true, { cmd with
                 type := CommandType.CMD_DISABLE
                 channel := toU8 c }) := by
  have lc := itoa_length_int c hc
  have htok : ∀ t ∈ [ascii "DISABLE", itoa c], Token t := by
    intro t ht
    simp only [List.mem_cons, List.mem_singleton, List.not_mem_nil, or_false] at ht
    rcases ht with rfl | rfl
    · exact token_disable_kw
    · exact token_itoa c
  have hlen : (unwords [ascii "DISABLE", itoa c]).length ≤ 255 := by
    simp only [unwords, List.length_append, List.length_cons, length_disable_kw]
    omega
  unfold parse_command
  simp only []
  rw [line_disable, working_copy_line _ htok hlen]
  simp only [strtok_unwords _ _ token_disable_kw, strtok_unwords _ _ (token_itoa _),
    if_neg disable_ne_setup, if_neg disable_ne_enable, if_true, ne_eq, not_true_eq_false, if_false, atoi_itoa _ hc]

theorem parse_set_range (c a b : Int) (hc : in_int c) (ha : in_int a) (hb : in_int b) (cmd : Command) :
    parse_command (line_set_range c a b) cmd
      = (true, { cmd with
                 type := CommandType.CMD_SET_RANGE
                 channel := toU8 c
                 range_min := toU16 a
                 range_max := toU16 b }) := by
  have lc := itoa_length_int c hc
  have la := itoa_length_int a ha
  have lb := itoa_length_int b hb
  have htok : ∀ t ∈ [ascii "SET", itoa c, ascii "RANGE", itoa a, itoa b], Token t := by
    intro t ht
    simp only [List.mem_cons, List.mem_singleton, List.not_mem_nil, or_false] at ht
    rcases ht with rfl | rfl | rfl | rfl | rfl
    · exact token_set_kw
    · exact token_itoa c
    · exact token_range_kw
    · exact token_itoa a
    · exact token_itoa b
  have hlen : (unwords [ascii "SET", itoa c, ascii "RANGE", itoa a, itoa b]).length ≤ 255 := by
    simp only [unwords, List.length_append, List.length_cons, length_range_kw, length_set_kw]
    omega
  unfold parse_command
  simp only []
  rw [line_set_range, working_copy_line _ htok hlen]
  simp only [strtok_unwords _ _ token_range_kw, strtok_unwords _ _ token_set_kw, strtok_unwords _ _ (token_itoa _),
    if_neg set_ne_setup, if_neg set_ne_enable, if_neg set_ne_disable, if_true, ne_eq, not_true_eq_false, if_false, atoi_itoa _ hc, atoi_itoa _ ha, atoi_itoa _ hb]

theorem parse_set_pulse (c v : Int) (hc : in_int c) (hv : in_int v) (cmd : Command) :
    parse_command (line_set_pulse c v) cmd
      = (true, { cmd with
                 type := CommandType.CMD_SET_PULSE
                 channel := toU8 c
                 pulse_value := toU16 v }) := by
  have lc := itoa_length_int c hc
  have lv := itoa_length_int v hv
  have htok : ∀ t ∈ [ascii "SET", itoa c, ascii "PULSE", itoa v], Token t := by
    intro t ht
    simp only [List.mem_cons, List.mem_singleton, List.not_mem_nil, or_false] at ht
    rcases ht with rfl | rfl | rfl | rfl
    · exact token_set_kw
    · exact token_itoa c
    · exact token_pulse_kw
    · exact token_itoa v
  have hlen : (unwords [ascii "SET", itoa c, ascii "PULSE", itoa v]).length ≤ 255 := by
    simp only [unwords, List.length_append, List.length_cons, length_pulse_kw, length_set_kw]
    omega
  unfold parse_command
  simp only []
  rw [line_set_pulse, working_copy_line _ htok hlen]
  simp only [strtok_unwords _ _ token_pulse_kw, strtok_unwords _ _ token_set_kw, strtok_unwords _ _ (token_itoa _),
    if_neg set_ne_setup, if_neg set_ne_enable, if_neg set_ne_disable, if_neg pulse_ne_range, if_true, ne_eq, not_true_eq_false, if_false, atoi_itoa _ hc, atoi_itoa _ hv]

theorem parse_get_range (c : Int) (hc : in_int c) (cmd : Command) :
    parse_command (line_get_range c) cmd
      = (true, { cmd with
                 type := CommandType.CMD_GET_RANGE
                 channel := toU8 c }) := by
  have lc := itoa_length_int c hc
  have htok : ∀ t ∈ [ascii "GET", itoa c, ascii "RANGE"], Token t := by
    intro t ht
    simp only [List.mem_cons, List.mem_singleton, List.not_mem_nil, or_false] at ht
    rcases ht with rfl | rfl | rfl
    · exact token_get_kw
    · exact token_itoa c
    · exact token_range_kw
  have hlen : (unwords [ascii "GET", itoa c, ascii "RANGE"]).length ≤ 255 := by
    simp only [unwords, List.length_append, List.length_cons, length_get_kw, length_range_kw]
    omega
  unfold parse_command
  simp only []
  rw [line_get_range, working_copy_line _ htok hlen]
  simp only [strtok_unwords _ _ token_get_kw, strtok_unwords _ _ token_range_kw, strtok_unwords _ _ (token_itoa _),
    if_neg get_ne_setup, if_neg get_ne_enable, if_neg get_ne_disable, if_neg get_ne_set, if_true, ne_eq, not_true_eq_false, if_false, atoi_itoa _ hc]

theorem parse_get_pulse (c : Int) (hc : in_int c) (cmd : Command) :
    parse_command (line_get_pulse c) cmd
      = (true, { cmd with
                 type := CommandType.CMD_GET_PULSE
                 channel := toU8 c }) := by
  have lc := itoa_length_int c hc
  have htok : ∀ t ∈ [ascii "GET", itoa c, ascii "PULSE"], Token t := by
    intro t ht
    simp only [List.mem_cons, List.mem_singleton, List.not_mem_nil, or_false] at ht
    rcases ht with rfl | rfl | rfl
    · exact token_get_kw
    · exact token_itoa c
    · exact token_pulse_kw
  have hlen : (unwords [ascii "GET", itoa c, ascii "PULSE"]).length ≤ 255 := by
    simp only [unwords, List.length_append, List.length_cons, length_get_kw, length_pulse_kw]
    omega
  unfold parse_command
  simp only []
  rw [line_get_pulse, working_copy_line _ htok hlen]
  simp only [strtok_unwords _ _ token_get_kw, strtok_unwords _ _ token_pulse_kw, strtok_unwords _ _ (token_itoa _),
    if_neg get_ne_setup, if_neg get_ne_enable, if_neg get_ne_disable, if_neg get_ne_set, if_neg pulse_ne_range, if_true, ne_eq, not_true_eq_false, if_false, atoi_itoa _ hc]

theorem parse_get_state (c : Int) (hc : in_int c) (cmd : Command) :
    parse_command (line_get_state c) cmd
      = (true, { cmd with
                 type := CommandType.CMD_GET_STATE
                 channel := toU8 c }) := by
  have lc := itoa_length_int c hc
  have htok : ∀ t ∈ [ascii "GET", itoa c, ascii "STATE"], Token t := by
    intro t ht
    simp only [List.mem_cons, List.mem_singleton, List.not_mem_nil, or_false] at ht
    rcases ht with rfl | rfl | rfl
    · exact token_get_kw
    · exact token_itoa c
    · exact token_state_kw
  have hlen : (unwords [ascii "GET", itoa c, ascii "STATE"]).length ≤ 255 := by
    simp only [unwords, List.length_append, List.length_cons, length_get_kw, length_state_kw]
    omega
  unfold parse_command
  simp only []
  rw [line_get_state, working_copy_line _ htok hlen]
  simp only [strtok_unwords _ _ token_get_kw, strtok_unwords _ _ token_state_kw, strtok_unwords _ _ (token_itoa _),
    if_neg get_ne_setup, if_neg get_ne_enable, if_neg get_ne_disable, if_neg get_ne_set, if_neg state_ne_range, if_neg state_ne_pulse, if_true, ne_eq, not_true_eq_false, if_false, atoi_itoa _ hc]

/-! ## Replies -/

theorem format_response_buffer (resp : Response) (buffer : List Nat) (n : Nat) (hn : n ≠ 0) :
    (format_response resp buffer n).2 = (response_text resp).take (n - 1) := by
  unfold format_response
  rw [if_neg hn]
  simp only []
  split_ifs <;> rfl

theorem cstring_eq (l : List Nat) (h : ∀ x ∈ l, x ≠ 0) : cstring l = l := by
  unfold cstring
  apply takeWhile_all
  intro x hx
  simpa using h x hx

/-- A response whose text has no NUL byte and fits the buffer is written to the
client as it is. -/
theorem send_response_text (s : ServoController) (resp : Response) (hw : List HwOp)
    (hnz : ∀ x ∈ response_text resp, x ≠ 0) (hlen : (response_text resp).length ≤ 255) :
    send_response s resp hw = { controller := s, reply := response_text resp, hw := hw } := by
  unfold send_response
  simp only []
  rw [format_response_buffer _ _ _ (by decide), List.take_of_length_le (by simpa [MAX_RESPONSE_LENGTH] using hlen),
    cstring_eq _ hnz]

theorem send_ok (s : ServoController) (hw : List HwOp) :
    send_response s { blank_response with type := ResponseType.RESP_OK } hw
      = { controller := s, reply := ascii "OK\n", hw := hw } := by
  rw [send_response_text _ _ _ (by decide) (by decide)]
  rfl

theorem send_invalid_command (s : ServoController) (hw : List HwOp) :
    send_response s (error_response "Invalid command") hw
      = { controller := s, reply := ascii "ERROR Invalid command\n", hw := hw } := by
  rw [send_response_text _ _ _ (by decide) (by decide)]
  congr 1

theorem send_invalid_channel (s : ServoController) (hw : List HwOp) :
    send_response s (error_response "Invalid channel") hw
      = { controller := s, reply := ascii "ERROR Invalid channel\n", hw := hw } := by
  rw [send_response_text _ _ _ (by decide) (by decide)]
  congr 1

theorem send_invalid_pin (s : ServoController) (hw : List HwOp) :
    send_response s (error_response "Invalid GPIO pin") hw
      = { controller := s, reply := ascii "ERROR Invalid GPIO pin\n", hw := hw } := by
  rw [send_response_text _ _ _ (by decide) (by decide)]
  congr 1

theorem send_not_configured (s : ServoController) (hw : List HwOp) :
    send_response s (error_response "Channel not configured") hw
      = { controller := s, reply := ascii "ERROR Channel not configured\n", hw := hw } := by
  rw [send_response_text _ _ _ (by decide) (by decide)]
  congr 1

theorem send_invalid_range (s : ServoController) (hw : List HwOp) :
    send_response s (error_response "Invalid range: min must be less than max") hw
      = { controller := s,
          reply := ascii "ERROR Invalid range: min must be less than max\n", hw := hw } := by
  rw [send_response_text _ _ _ (by decide) (by decide)]
  congr 1

theorem send_out_of_range (s : ServoController) (hw : List HwOp) :
    send_response s (error_response "Pulse value out of range") hw
      = { controller := s, reply := ascii "ERROR Pulse value out of range\n", hw := hw } := by
  rw [send_response_text _ _ _ (by decide) (by decide)]
  congr 1

theorem send_unknown_command (s : ServoController) (hw : List HwOp) :
    send_response s (error_response "Unknown command") hw
      = { controller := s, reply := ascii "ERROR Unknown command\n", hw := hw } := by
  rw [send_response_text _ _ _ (by decide) (by decide)]
  congr 1

theorem utoa_nonzero (n : Nat) : ∀ x ∈ utoa n, x ≠ 0 := by
  intro x hx
  have := utoa_digits n x hx
  omega

theorem utoa_length_u16 (x : Int) (h : 0 ≤ x ∧ x < 65536) : (utoa x.toNat).length ≤ 5 := by
  apply utoa_length _ 4
  have : x.toNat < 65536 := by omega
  omega

/-- The reply to `GET <c> RANGE`. -/
theorem send_range (s : ServoController) (a b : Int) (hw : List HwOp)
    (ha : 0 ≤ a ∧ a < 65536) (hb : 0 ≤ b ∧ b < 65536) :
    send_response s
        { blank_response with type := ResponseType.RESP_RANGE, range_min := a, range_max := b } hw
      = { controller := s,
          reply := ascii "RANGE " ++ utoa a.toNat ++ ascii " " ++ utoa b.toNat ++ ascii "\n",
          hw := hw } := by
  have la := utoa_length_u16 a ha
  have lb := utoa_length_u16 b hb
  rw [send_response_text]
  · rfl
  · intro x hx
    simp only [response_text, List.mem_append] at hx
    rcases hx with (((hx | hx) | hx) | hx) | hx
    · revert x; decide
    · exact utoa_nonzero _ x hx
    · revert x; decide
    · exact utoa_nonzero _ x hx
    · revert x; decide
  · have l1 : (ascii "RANGE ").length = 6 := by decide
    have l2 : (ascii " ").length = 1 := by decide
    have l3 : (ascii "\n").length = 1 := by decide
    simp only [response_text, List.length_append, l1, l2, l3]
    omega

/-- The reply to `GET <c> PULSE`. -/
theorem send_pulse (s : ServoController) (v : Int) (hw : List HwOp) (hv : 0 ≤ v ∧ v < 65536) :
    send_response s { blank_response with type := ResponseType.RESP_PULSE, pulse_value := v } hw
      = { controller := s, reply := ascii "PULSE " ++ utoa v.toNat ++ ascii "\n", hw := hw } := by
  have lv := utoa_length_u16 v hv
  rw [send_response_text]
  · rfl
  · intro x hx
    simp only [response_text, List.mem_append] at hx
    rcases hx with (hx | hx) | hx
    · revert x; decide
    · exact utoa_nonzero _ x hx
    · revert x; decide
  · have l1 : (ascii "PULSE ").length = 6 := by decide
    have l3 : (ascii "\n").length = 1 := by decide
    simp only [response_text, List.length_append, l1, l3]
    omega

/-- The reply to `GET <c> STATE`. -/
theorem send_state (s : ServoController) (g : Int) (e : Bool) (hw : List HwOp)
    (hg : 0 ≤ g ∧ g < 256) :
    send_response s
        { blank_response with type := ResponseType.RESP_STATE, state_gpio := g, state_enabled := e }
        hw
      = { controller := s,
          reply := ascii "GPIO " ++ utoa g.toNat ++ ascii " ENABLE "
            ++ (if e then ascii "1" else ascii "0") ++ ascii "\n",
          hw := hw } := by
  have lg := utoa_length_u16 g (by omega)
  have he : itoa (if e = true then 1 else 0) = if e then ascii "1" else ascii "0" := by
    cases e <;> decide
  rw [send_response_text]
  · simp only [response_text, he]
  · intro x hx
    simp only [response_text, List.mem_append, he] at hx
    rcases hx with (((hx | hx) | hx) | hx) | hx
    · revert x; decide
    · exact utoa_nonzero _ x hx
    · revert x; decide
    · cases e <;> (revert x; decide)
    · revert x; decide
  · have l1 : (ascii "GPIO ").length = 5 := by decide
    have l2 : (ascii " ENABLE ").length = 8 := by decide
    have l3 : (ascii "\n").length = 1 := by decide
    have l4 : (if e then ascii "1" else ascii "0").length = 1 := by cases e <;> decide
    simp only [response_text, List.length_append, l1, l2, l3, he, l4]
    omega

/-! ## What `handle_command` does on each command line -/

theorem toU8_channel (c : Nat) (hc : c < 8) : toU8 (c : Int) = (c : Int) := by
  unfold toU8
  omega

theorem in_int_channel (c : Nat) (hc : c < 8) : in_int (c : Int) := by
  unfold in_int
  omega

theorem channel_at_store (s : ServoController) (i j : Nat) (ch : ServoChannel) :
    channel_at (store_channel s i ch) j
      = if i = j ∧ i < s.channels.length then ch else channel_at s j := by
  unfold channel_at store_channel
  simp only [List.getD_eq_getElem?_getD, List.getElem?_set]
  by_cases hij : i = j
  · subst hij
    by_cases hlt : i < s.channels.length
    · simp [hlt]
    · have hnone : s.channels[i]? = none := List.getElem?_eq_none (by omega)
      simp [hlt, hnone]
  · simp [hij]

theorem handle_setup (s : ServoController) (c : Nat) (p : Int) (hc : c < 8) (hp : in_int p) :
    handle_command s (line_setup c p)
      = if toU8 p > 27 then
          { controller := s, reply := ascii "ERROR Invalid GPIO pin\n", hw := [] }
        else
          { controller := store_channel s c
              { gpio := toU8 p, enabled := 0, min_us := 1000, max_us := 2000, pulse_us := 1500 },
            reply := ascii "OK\n", hw := gpio_set_output (toU8 p) } := by
  unfold handle_command
  simp only [parse_setup _ _ (in_int_channel c hc) hp, toU8_channel c hc, MAX_SERVO_CHANNELS,
    MAX_GPIO_PIN, SERVO_NEUTRAL_US, SERVO_MIN_US, SERVO_MAX_US, Int.toNat_ofNat, Bool.not_true,
    send_invalid_pin, send_ok]
  have h8 : ¬ ((c : Int) ≥ 8) := by omega
  simp only [h8, if_false, Bool.false_eq_true]

theorem handle_enable (s : ServoController) (c : Nat) (hc : c < 8) :
    handle_command s (line_enable c)
      = if (channel_at s c).gpio = 0 then
          { controller := s, reply := ascii "ERROR Channel not configured\n", hw := [] }
        else
          { controller := store_channel s c { channel_at s c with enabled := 1 },
            reply := ascii "OK\n", hw := [] } := by
  unfold handle_command
  simp only [parse_enable _ (in_int_channel c hc), toU8_channel c hc, MAX_SERVO_CHANNELS,
    Int.toNat_ofNat, Bool.not_true, send_not_configured, send_ok]
  have h8 : ¬ ((c : Int) ≥ 8) := by omega
  simp only [h8, if_false, Bool.false_eq_true]

theorem handle_disable (s : ServoController) (c : Nat) (hc : c < 8) :
    handle_command s (line_disable c)
      = { controller := store_channel s c { channel_at s c with enabled := 0 },
          reply := ascii "OK\n", hw := [] } := by
  unfold handle_command
  simp only [parse_disable _ (in_int_channel c hc), toU8_channel c hc, MAX_SERVO_CHANNELS,
    Int.toNat_ofNat, Bool.not_true, send_ok]
  have h8 : ¬ ((c : Int) ≥ 8) := by omega
  simp only [h8, if_false, Bool.false_eq_true]

theorem handle_set_range (s : ServoController) (c : Nat) (a b : Int) (hc : c < 8)
    (ha : in_int a) (hb : in_int b) :
    handle_command s (line_set_range c a b)
      = if toU16 a ≥ toU16 b then
          { controller := s,
            reply := ascii "ERROR Invalid range: min must be less than max\n", hw := [] }
        else
          { controller := store_channel s c
              { channel_at s c with min_us := toI16 (toU16 a), max_us := toI16 (toU16 b) },
            reply := ascii "OK\n", hw := [] } := by
  unfold handle_command
  simp only [parse_set_range _ _ _ (in_int_channel c hc) ha hb, toU8_channel c hc,
    MAX_SERVO_CHANNELS, Int.toNat_ofNat, Bool.not_true, send_invalid_range, send_ok]
  have h8 : ¬ ((c : Int) ≥ 8) := by omega
  simp only [h8, if_false, Bool.false_eq_true]

theorem handle_set_pulse (s : ServoController) (c : Nat) (v : Int) (hc : c < 8)
    (hv : in_int v) :
    handle_command s (line_set_pulse c v)
      = if (channel_at s c).gpio = 0 then
          { controller := s, reply := ascii "ERROR Channel not configured\n", hw := [] }
        else if toU16 v < (channel_at s c).min_us ∨ toU16 v > (channel_at s c).max_us then
          { controller := s, reply := ascii "ERROR Pulse value out of range\n", hw := [] }
        else
          { controller := store_channel s c
              { channel_at s c with pulse_us := toI16 (toU16 v) },
            reply := ascii "OK\n", hw := [] } := by
  unfold handle_command
  simp only [parse_set_pulse _ _ (in_int_channel c hc) hv, toU8_channel c hc,
    MAX_SERVO_CHANNELS, Int.toNat_ofNat, Bool.not_true, send_not_configured,
    send_out_of_range, send_ok]
  have h8 : ¬ ((c : Int) ≥ 8) := by omega
  simp only [h8, if_false, Bool.false_eq_true]

theorem toU16_bounds (x : Int) : 0 ≤ toU16 x ∧ toU16 x < 65536 := by
  unfold toU16
  omega

theorem handle_get_range (s : ServoController) (c : Nat) (hc : c < 8) :
    handle_command s (line_get_range c)
      = { controller := s,
          reply := ascii "RANGE " ++ utoa (toU16 (channel_at s c).min_us).toNat ++ ascii " "
            ++ utoa (toU16 (channel_at s c).max_us).toNat ++ ascii "\n",
          hw := [] } := by
  unfold handle_command
  simp only [parse_get_range _ (in_int_channel c hc), toU8_channel c hc, MAX_SERVO_CHANNELS,
    Int.toNat_ofNat, Bool.not_true, send_range _ _ _ _ (toU16_bounds _) (toU16_bounds _)]
  have h8 : ¬ ((c : Int) ≥ 8) := by omega
  simp only [h8, if_false, Bool.false_eq_true]

theorem handle_get_pulse (s : ServoController) (c : Nat) (hc : c < 8) :
    handle_command s (line_get_pulse c)
      = { controller := s,
          reply := ascii "PULSE " ++ utoa (toU16 (channel_at s c).pulse_us).toNat ++ ascii "\n",
          hw := [] } := by
  unfold handle_command
  simp only [parse_get_pulse _ (in_int_channel c hc), toU8_channel c hc, MAX_SERVO_CHANNELS,
    Int.toNat_ofNat, Bool.not_true, send_pulse _ _ _ (toU16_bounds _)]
  have h8 : ¬ ((c : Int) ≥ 8) := by omega
  simp only [h8, if_false, Bool.false_eq_true]

/-! ## The startup state, and `SETUP` with a pin in 0..27 -/

theorem send_response_controller (s : ServoController) (resp : Response) (hw : List HwOp) :
    (send_response s resp hw).controller = s := rfl

theorem startup_channel (c : Nat) : channel_at startup c = zero_channel := by
  unfold channel_at startup
  rw [List.getD_eq_getElem?_getD, List.getElem?_replicate]
  split_ifs <;> rfl

theorem handle_get_state (s : ServoController) (c : Nat) (hc : c < 8)
    (hg : 0 ≤ (channel_at s c).gpio ∧ (channel_at s c).gpio < 256) :
    handle_command s (line_get_state c)
      = { controller := s,
          reply := ascii "GPIO " ++ utoa (channel_at s c).gpio.toNat ++ ascii " ENABLE "
            ++ (if (channel_at s c).enabled ≠ 0 then ascii "1" else ascii "0") ++ ascii "\n",
          hw := [] } := by
  unfold handle_command
  simp only [parse_get_state _ (in_int_channel c hc), toU8_channel c hc, MAX_SERVO_CHANNELS,
    Int.toNat_ofNat, Bool.not_true, send_state _ _ _ _ hg, decide_eq_true_eq]
  have h8 : ¬ ((c : Int) ≥ 8) := by omega
  simp only [h8, if_false, Bool.false_eq_true]

theorem itoa_nat (n : Nat) : itoa (n : Int) = utoa n := by
  unfold itoa
  rw [if_neg (by omega)]
  rfl

theorem toU8_pin (p : Nat) (hp : p ≤ 27) : toU8 (p : Int) = (p : Int) := by
  unfold toU8
  omega

/-- What `SETUP <c> GPIO <p>` does for a pin in 0..27. -/
theorem handle_setup_pin (s : ServoController) (c p : Nat) (hc : c < 8) (hp : p ≤ 27) :
    handle_command s (line_setup c p)
      = { controller := store_channel s c
            { gpio := p, enabled := 0, min_us := 1000, max_us := 2000, pulse_us := 1500 },
          reply := ascii "OK\n", hw := [HwOp.set_output p] } := by
  have hint : in_int (p : Int) := by unfold in_int; omega
  rw [handle_setup s c p hc hint, toU8_pin p hp, if_neg (by omega)]
  have : gpio_set_output (p : Int) = [HwOp.set_output p] := by
    unfold gpio_set_output MAX_GPIO_PIN
    rw [if_neg (by omega)]
  rw [this]

/-! ## What a command may change -/

theorem ok_is_not_error : ¬ ((ascii "OK\n").take 6 = ascii "ERROR ") := by decide

theorem store_channel_num (s : ServoController) (i : Nat) (ch : ServoChannel) :
    (store_channel s i ch).num_channels = s.num_channels := rfl

theorem store_channel_length (s : ServoController) (i : Nat) (ch : ServoChannel) :
    (store_channel s i ch).channels.length = s.channels.length := by
  simp [store_channel]

theorem channel_at_store_other (s : ServoController) (i j : Nat) (ch : ServoChannel)
    (h : j ≠ i) : channel_at (store_channel s i ch) j = channel_at s j := by
  rw [channel_at_store, if_neg (fun hij => h hij.1.symm)]

/-- The frame of `handle_command`: only the channel that the channel field of
the parsed command selects can change, the other controller fields stay, and
an `ERROR` reply or a `GET` command means that nothing changed. -/
theorem handle_command_frame_aux (s : ServoController) (line : List Nat) :
    (∀ j : Nat, j ≠ (parse_command line blank_command).2.channel.toNat →
      channel_at (handle_command s line).controller j = channel_at s j) ∧
    (handle_command s line).controller.num_channels = s.num_channels ∧
    (handle_command s line).controller.channels.length = s.channels.length ∧
    ((handle_command s line).reply.take 6 = ascii "ERROR " →
      (handle_command s line).controller = s) ∧
    ((parse_command line blank_command).2.type = CommandType.CMD_GET_RANGE ∨
      (parse_command line blank_command).2.type = CommandType.CMD_GET_PULSE ∨
      (parse_command line blank_command).2.type = CommandType.CMD_GET_STATE →
      (handle_command s line).controller = s) := by
  unfold handle_command
  generalize parse_command line blank_command = p
  obtain ⟨ok, cmd⟩ := p
  obtain ⟨ty, chn, g, mn, mx, pv⟩ := cmd
  cases ok
  · simp [send_response_controller]
  · simp only [Bool.not_true, Bool.false_eq_true, if_false]
    by_cases h8 : chn ≥ MAX_SERVO_CHANNELS
    · simp [h8, send_response_controller]
    · rw [if_neg h8]
      cases ty <;> simp only [] <;> (try split_ifs) <;>
        simp [send_ok, send_response_controller, store_channel_num, store_channel_length,
          ok_is_not_error] <;>
        (intro j hj; exact channel_at_store_other _ _ _ _ hj)

/-! ## Tokens of an arbitrary line -/

theorem strtok_rest_length (s t rest : List Nat) (h : strtok s = some (t, rest)) :
    rest.length < s.length := by
  unfold strtok at h
  split at h
  · exact absurd h (by simp)
  · rename_i c cs hd
    simp only [Option.some.injEq, Prod.mk.injEq] at h
    have h1 : (List.dropWhile (fun c => c == 32) s).length ≤ s.length :=
      (List.dropWhile_sublist _).length_le
    have h2 : (List.dropWhile (fun c => c != 32) (c :: cs)).length ≤ (c :: cs).length :=
      (List.dropWhile_sublist _).length_le
    rw [hd] at h1
    rw [← h.2, List.length_drop]
    simp only [List.length_cons] at h1 h2
    omega

theorem tokens_aux_fuel (f1 f2 : Nat) (s : List Nat) (h1 : s.length < f1) (h2 : s.length < f2) :
    tokens_aux f1 s = tokens_aux f2 s := by
  induction f1 generalizing f2 s with
  | zero => omega
  | succ f1 ih =>
    cases f2 with
    | zero => omega
    | succ f2 =>
      unfold tokens_aux
      cases hs : strtok s with
      | none => rfl
      | some tr =>
        obtain ⟨t, rest⟩ := tr
        have := strtok_rest_length s t rest hs
        simp only []
        rw [ih f2 rest (by omega) (by omega)]

/-- The tokens of a text are the first token followed by the tokens of what
`strtok` leaves. -/
theorem tokens_eq (s : List Nat) :
    tokens s = match strtok s with
      | none => []
      | some (t, rest) => t :: tokens rest := by
  unfold tokens
  rw [tokens_aux]
  cases hs : strtok s with
  | none => rfl
  | some tr =>
    obtain ⟨t, rest⟩ := tr
    have := strtok_rest_length s t rest hs
    simp only []
    rw [tokens_aux_fuel (s.length) (rest.length + 1) rest (by omega) (by omega)]

theorem tokens_none (s : List Nat) (h : strtok s = none) : tokens s = [] := by
  rw [tokens_eq, h]

theorem tokens_some (s t rest : List Nat) (h : strtok s = some (t, rest)) :
    tokens s = t :: tokens rest := by
  rw [tokens_eq, h]

/-- The result of `parse_command` in terms of the tokens of the working copy:
it returns false exactly on the malformed token lists, the type is
`CMD_INVALID` whenever it returns false and never when it returns true. -/
theorem parse_command_result (line : List Nat) (cmd : Command) :
    (parse_command line cmd).1 = !malformed (tokens (working_copy line)) ∧
    ((parse_command line cmd).1 = false →
      (parse_command line cmd).2.type = CommandType.CMD_INVALID) ∧
    ((parse_command line cmd).1 = true →
      (parse_command line cmd).2.type ≠ CommandType.CMD_INVALID) := by
  unfold parse_command working_copy
  simp only []
  generalize str_toupper
    (if ((cstring line).take (MAX_COMMAND_LENGTH - 1)).getLast? = some 10
     then ((cstring line).take (MAX_COMMAND_LENGTH - 1)).dropLast
     else (cstring line).take (MAX_COMMAND_LENGTH - 1)) = w
  rw [tokens_eq w]
  cases h0 : strtok w with
  | none => simp [malformed, parse_fail]
  | some tr0 =>
    obtain ⟨t0, r0⟩ := tr0
    simp only [malformed]
    rw [tokens_eq r0]
    by_cases k1 : t0 = ascii "SETUP"
    · simp only [k1, if_true]
      cases h1 : strtok r0 with
      | none => simp [parse_fail]
      | some tr1 =>
        obtain ⟨t1, r1⟩ := tr1
        simp only []
        rw [tokens_eq r1]
        cases h2 : strtok r1 with
        | none => simp [parse_fail]
        | some tr2 =>
          obtain ⟨t2, r2⟩ := tr2
          simp only []
          rw [tokens_eq r2]
          cases h3 : strtok r2 with
          | none => split_ifs <;> simp_all [parse_fail]
          | some tr3 =>
            obtain ⟨t3, r3⟩ := tr3
            simp only []
            split_ifs <;> simp_all [parse_fail]
    · simp only [if_neg k1]
      by_cases k2 : t0 = ascii "ENABLE"
      · simp only [k2, if_true, true_or]
        cases h1 : strtok r0 with
        | none => simp [parse_fail]
        | some tr1 =>
          obtain ⟨t1, r1⟩ := tr1
          simp
      · simp only [if_neg k2, k2, false_or]
        by_cases k3 : t0 = ascii "DISABLE"
        · simp only [k3, if_true]
          cases h1 : strtok r0 with
          | none => simp [parse_fail]
          | some tr1 =>
            obtain ⟨t1, r1⟩ := tr1
            simp
        · simp only [if_neg k3]
          by_cases k4 : t0 = ascii "SET"
          · simp only [k4, if_true]
            cases h1 : strtok r0 with
            | none => simp [parse_fail]
            | some tr1 =>
              obtain ⟨t1, r1⟩ := tr1
              simp only []
              rw [tokens_eq r1]
              cases h2 : strtok r1 with
              | none => simp [parse_fail]
              | some tr2 =>
                obtain ⟨t2, r2⟩ := tr2
                simp only []
                rw [tokens_eq r2]
                cases h3 : strtok r2 with
                | none => split_ifs <;> simp_all [parse_fail]
                | some tr3 =>
                  obtain ⟨t3, r3⟩ := tr3
                  simp only []
                  rw [tokens_eq r3]
                  cases h4 : strtok r3 with
                  | none => split_ifs <;> simp_all [parse_fail]
                  | some tr4 =>
                    obtain ⟨t4, r4⟩ := tr4
                    simp only []
                    split_ifs <;> simp_all [parse_fail]
          · simp only [if_neg k4]
            by_cases k5 : t0 = ascii "GET"
            · simp only [k5, if_true]
              cases h1 : strtok r0 with
              | none => simp [parse_fail]
              | some tr1 =>
                obtain ⟨t1, r1⟩ := tr1
                simp only []
                rw [tokens_eq r1]
                cases h2 : strtok r1 with
                | none => simp [parse_fail]
                | some tr2 =>
                  obtain ⟨t2, r2⟩ := tr2
                  simp only []
                  split_ifs <;> simp_all [parse_fail]
            · simp [if_neg k5, parse_fail]

theorem handle_command_parse_false (s : ServoController) (line : List Nat)
    (h : (parse_command line blank_command).1 = false) :
    handle_command s line
      = { controller := s, reply := ascii "ERROR Invalid command\n", hw := [] } := by
  unfold handle_command
  simp only [h, Bool.not_false, if_true, send_invalid_command]

/-! ## The bubble sort of `pwm_run_frame` -/

theorem bubble_step_cons (s : ServoController) (x : Nat) (l : List Nat) (j : Nat) :
    bubble_step s (x :: l) (j + 1) = x :: bubble_step s l j := by
  unfold bubble_step
  simp only [List.getD_cons_succ, List.set_cons_succ]
  split_ifs <;> rfl

/-- The compare-and-swap at the position after `pre`. -/
theorem bubble_step_at (s : ServoController) (pre : List Nat) (a b : Nat) (post : List Nat) :
    bubble_step s (pre ++ a :: b :: post) pre.length
      = if pulse_of s a > pulse_of s b then pre ++ b :: a :: post
        else pre ++ a :: b :: post := by
  induction pre with
  | nil =>
    unfold bubble_step pulse_of
    simp only [List.nil_append, List.length_nil, List.getD_cons_zero, List.getD_cons_succ,
      List.set_cons_zero, List.set_cons_succ]
  | cons x pre ih =>
    simp only [List.cons_append, List.length_cons]
    rw [bubble_step_cons, ih]
    split_ifs <;> rfl

/-- The inner loop of the sort with bound `m`. -/
theorem bubble_pass (s : ServoController) (l : List Nat) (m : Nat) (hm : m < l.length) :
    ∃ pre a,
      (List.range m).foldl (bubble_step s) l = pre ++ a :: l.drop (m + 1) ∧
      pre.length = m ∧
      (∀ x ∈ pre, pulse_of s x ≤ pulse_of s a) ∧
      List.Perm (pre ++ [a]) (l.take (m + 1)) := by
  induction m with
  | zero =>
    cases l with
    | nil => simp at hm
    | cons a l =>
      exact ⟨[], a, by simp, rfl, by simp, by simp⟩
  | succ m ih =>
    obtain ⟨pre, a, hfold, hlen, hmax, hperm⟩ := ih (by omega)
    have hdrop : l.drop (m + 1) = l[m + 1] :: l.drop (m + 2) := by
      rw [List.drop_eq_getElem_cons hm]
    have htake : l.take (m + 2) = l.take (m + 1) ++ [l[m + 1]] := by
      rw [List.take_succ, List.getElem?_eq_getElem hm]
      rfl
    rw [List.range_succ, List.foldl_append, hfold, hdrop]
    simp only [List.foldl_cons, List.foldl_nil]
    have hstep := bubble_step_at s pre a l[m + 1] (l.drop (m + 2))
    rw [hlen] at hstep
    rw [hstep]
    by_cases hgt : pulse_of s a > pulse_of s l[m + 1]
    · rw [if_pos hgt]
      refine ⟨pre ++ [l[m + 1]], a, by simp, by simp [hlen], ?_, ?_⟩
      · intro x hx
        rcases List.mem_append.mp hx with hx | hx
        · exact hmax x hx
        · simp only [List.mem_singleton] at hx
          rw [hx]
          omega
      · rw [htake]
        have h1 : List.Perm (pre ++ [l[m + 1]] ++ [a]) (pre ++ [a] ++ [l[m + 1]]) := by
          simp only [List.append_assoc]
          exact List.Perm.append_left pre (List.Perm.swap _ _ _)
        exact h1.trans (List.Perm.append_right _ hperm)
    · rw [if_neg hgt]
      refine ⟨pre ++ [a], l[m + 1], by simp, by simp [hlen], ?_, ?_⟩
      · intro x hx
        rcases List.mem_append.mp hx with hx | hx
        · have := hmax x hx
          omega
        · simp only [List.mem_singleton] at hx
          rw [hx]
          omega
      · rw [htake]
        exact List.Perm.append_right _ hperm

/-- The outer loop of the sort after `k` passes: a sorted tail of `k` entries,
none of them smaller than an entry in front of it. -/
theorem bubble_passes (s : ServoController) (l : List Nat) (n : Nat) (hl : l.length = n)
    (k : Nat) (hk : k ≤ n - 1) :
    ∃ P S,
      (List.range k).foldl
          (fun sorted i => (List.range (n - i - 1)).foldl (bubble_step s) sorted) l
        = P ++ S ∧
      S.length = k ∧
      S.Pairwise (fun a b => pulse_of s a ≤ pulse_of s b) ∧
      (∀ x ∈ P, ∀ y ∈ S, pulse_of s x ≤ pulse_of s y) ∧
      List.Perm (P ++ S) l := by
  induction k with
  | zero => exact ⟨l, [], by simp, rfl, List.Pairwise.nil, by simp, by simp⟩
  | succ k ih =>
    obtain ⟨P, S, hfold, hS, hsorted, hcross, hperm⟩ := ih (by omega)
    have hlen : P.length + S.length = n := by
      have := hperm.length_eq
      rw [List.length_append] at this
      omega
    have hP : P.length = n - k - 1 + 1 := by omega
    obtain ⟨pre, a, hpass, hprelen, hmax, hpp⟩ :=
      bubble_pass s (P ++ S) (n - k - 1) (by rw [List.length_append]; omega)
    rw [← hP] at hpass hpp
    rw [List.drop_left] at hpass
    rw [List.take_left] at hpp
    rw [List.range_succ, List.foldl_append, hfold]
    simp only [List.foldl_cons, List.foldl_nil]
    rw [hpass]
    have hmemP : ∀ x, x ∈ pre ++ [a] → x ∈ P := fun x hx => hpp.subset hx
    have haP : a ∈ P := hmemP a (by simp)
    refine ⟨pre, a :: S, rfl, by simp [hS], ?_, ?_, ?_⟩
    · rw [List.pairwise_cons]
      exact ⟨fun y hy => hcross a haP y hy, hsorted⟩
    · intro x hx y hy
      rcases List.mem_cons.mp hy with rfl | hy
      · exact hmax x hx
      · exact hcross x (hmemP x (by simp [hx])) y hy
    · have h1 : pre ++ a :: S = (pre ++ [a]) ++ S := by simp
      rw [h1]
      exact (List.Perm.append_right S hpp).trans hperm

/-- The bubble sort returns a permutation of its input in ascending order of
pulse width. -/
theorem bubble_sort_sorted (s : ServoController) (l : List Nat)
    (hl : l.length = s.num_channels.toNat) :
    (bubble_sort s l).Pairwise (fun a b => pulse_of s a ≤ pulse_of s b) ∧
    List.Perm (bubble_sort s l) l := by
  obtain ⟨P, S, hfold, hS, hsorted, hcross, hperm⟩ :=
    bubble_passes s l s.num_channels.toNat hl (s.num_channels.toNat - 1) (le_refl _)
  unfold bubble_sort
  simp only []
  rw [hfold]
  refine ⟨?_, hperm⟩
  rw [List.pairwise_append]
  refine ⟨?_, hsorted, hcross⟩
  have hlen : P.length + S.length = s.num_channels.toNat := by
    have := hperm.length_eq
    rw [List.length_append] at this
    omega
  cases P with
  | nil => exact List.Pairwise.nil
  | cons x P =>
    cases P with
    | nil => simp
    | cons y P =>
      simp only [List.length_cons] at hlen
      omega

/-- The index array that `pwm_run_frame` walks: the channel ids in ascending
order of pulse width. -/
theorem sorted_channels_sorted (s : ServoController) :
    (sorted_channels s).Pairwise (fun a b => pulse_of s a ≤ pulse_of s b) ∧
    List.Perm (sorted_channels s) (List.range s.num_channels.toNat) := by
  unfold sorted_channels
  exact bubble_sort_sorted s _ (by simp)

/-! ## The trace of one frame -/

theorem gpio_set_valid (pin : Int) (h : pin ≤ 27) : gpio_set pin = [HwOp.set_high pin] := by
  unfold gpio_set MAX_GPIO_PIN
  rw [if_neg (by omega)]

theorem gpio_clear_valid (pin : Int) (h : pin ≤ 27) : gpio_clear pin = [HwOp.set_low pin] := by
  unfold gpio_clear MAX_GPIO_PIN
  rw [if_neg (by omega)]

/-- Step 1 of the frame on a list of channel ids with valid pins: one
set-high per enabled channel, in the order of the list. -/
theorem set_high_trace (s : ServoController) (l : List Nat)
    (hpin : ∀ i ∈ l, pin_of s i ≤ 27) :
    (l.flatMap fun i =>
        if (channel_at s i).enabled ≠ 0 ∧ (channel_at s i).gpio ≤ MAX_GPIO_PIN
        then gpio_set (channel_at s i).gpio else [])
      = (l.filter (is_enabled s)).map (fun i => HwOp.set_high (pin_of s i)) := by
  induction l with
  | nil => rfl
  | cons i l ih =>
    have hi : (channel_at s i).gpio ≤ 27 := hpin i (List.mem_cons_self _ _)
    rw [List.flatMap_cons, ih (fun j hj => hpin j (List.mem_cons_of_mem _ hj))]
    by_cases he : (channel_at s i).enabled = 0
    · have hen : is_enabled s i = false := by simp [is_enabled, he]
      simp [he, List.filter_cons, hen]
    · have hen : is_enabled s i = true := by simp [is_enabled, he]
      simp [he, List.filter_cons, hen, MAX_GPIO_PIN, hi, gpio_set_valid _ hi, pin_of]

theorem pwm_set_high_eq (s : ServoController) (hn : s.num_channels = 8)
    (hpin : ∀ i < 8, pin_of s i ≤ 27) :
    pwm_set_high s
      = ((List.range 8).filter (is_enabled s)).map (fun i => HwOp.set_high (pin_of s i)) := by
  unfold pwm_set_high
  rw [hn]
  exact set_high_trace s (List.range 8) (fun i hi => hpin i (List.mem_range.mp hi))

/-- Step 3 of the frame skips the disabled channels altogether. -/
theorem clear_loop_enabled_only (s : ServoController) (ids : List Nat) (prev : Int) :
    pwm_clear_loop s ids prev = pwm_clear_loop s (ids.filter (is_enabled s)) prev := by
  induction ids generalizing prev with
  | nil => rfl
  | cons i ids ih =>
    by_cases he : (channel_at s i).enabled = 0
    · have hen : is_enabled s i = false := by simp [is_enabled, he]
      rw [List.filter_cons, hen]
      simp only [Bool.false_eq_true, if_false]
      rw [pwm_clear_loop]
      simp only [he, if_true]
      exact ih prev
    · have hen : is_enabled s i = true := by simp [is_enabled, he]
      rw [List.filter_cons, hen]
      simp only [if_true]
      rw [pwm_clear_loop, pwm_clear_loop]
      simp only [he, if_false]
      rw [ih]

theorem high_pins_map (l : List Nat) (f : Nat → Int) :
    high_pins (l.map fun i => HwOp.set_high (f i)) = l.map f := by
  induction l with
  | nil => rfl
  | cons i l ih => simp [high_pins, ih]

theorem low_pins_map_high (l : List Nat) (f : Nat → Int) (rest : List HwOp) :
    low_pins ((l.map fun i => HwOp.set_high (f i)) ++ rest) = low_pins rest := by
  induction l with
  | nil => rfl
  | cons i l ih => simp [low_pins, ih]

theorem sleeps_map_high (l : List Nat) (f : Nat → Int) (rest : List HwOp) :
    sleeps ((l.map fun i => HwOp.set_high (f i)) ++ rest) = sleeps rest := by
  induction l with
  | nil => rfl
  | cons i l ih => simp [sleeps, ih]

theorem low_times_map_high (l : List Nat) (f : Nat → Int) (rest : List HwOp) (t : Int) :
    low_times ((l.map fun i => HwOp.set_high (f i)) ++ rest) t = low_times rest t := by
  induction l with
  | nil => rfl
  | cons i l ih => simp [low_times, ih]

theorem high_pins_append_map (l : List Nat) (f : Nat → Int) (rest : List HwOp) :
    high_pins ((l.map fun i => HwOp.set_high (f i)) ++ rest) = l.map f ++ high_pins rest := by
  induction l with
  | nil => rfl
  | cons i l ih => simp [high_pins, ih]

/-- The trace of step 3 on enabled channels with valid pins: no pin is driven
high, one pin is driven low per channel in the order of the list, and there
are at most as many sleeps as channels. -/
theorem clear_loop_pins (s : ServoController) (ids : List Nat) (prev : Int)
    (hpin : ∀ i ∈ ids, pin_of s i ≤ 27) :
    high_pins (pwm_clear_loop s ids prev) = [] ∧
    low_pins (pwm_clear_loop s ids prev) = (ids.filter (is_enabled s)).map (pin_of s) ∧
    (sleeps (pwm_clear_loop s ids prev)).length ≤ (ids.filter (is_enabled s)).length := by
  induction ids generalizing prev with
  | nil => simp [pwm_clear_loop, high_pins, low_pins, sleeps]
  | cons i ids ih =>
    have hi : (channel_at s i).gpio ≤ 27 := hpin i (List.mem_cons_self _ _)
    have hrest : ∀ j ∈ ids, pin_of s j ≤ 27 := fun j hj => hpin j (List.mem_cons_of_mem _ hj)
    by_cases he : (channel_at s i).enabled = 0
    · have hen : is_enabled s i = false := by simp [is_enabled, he]
      rw [pwm_clear_loop]
      simp only [he, if_true, List.filter_cons, hen, Bool.false_eq_true, if_false]
      exact ih prev hrest
    · have hen : is_enabled s i = true := by simp [is_enabled, he]
      obtain ⟨h1, h2, h3⟩ := ih (toU32 (channel_at s i).pulse_us) hrest
      rw [pwm_clear_loop]
      simp only [he, if_false, List.filter_cons, hen, if_true, gpio_clear_valid _ hi]
      split_ifs
      · simp [high_pins, low_pins, sleeps, h1, h2, pin_of]
        omega
      · simp [high_pins, low_pins, sleeps, h1, h2, pin_of]
        omega

/-- Step 3 of the frame on channels in ascending order of pulse width, none
below the baseline: every enabled channel's pin is driven low when the sleeps
issued so far add up to its pulse width. -/
theorem clear_loop_times (s : ServoController) (ids : List Nat) (prev : Int)
    (hpin : ∀ i ∈ ids, pin_of s i ≤ 27)
    (hsorted : ids.Pairwise (fun a b => pulse_of s a ≤ pulse_of s b))
    (hprev : 0 ≤ prev)
    (hb : ∀ i ∈ ids, prev ≤ pulse_of s i ∧ pulse_of s i ≤ 32767) :
    low_times (pwm_clear_loop s ids prev) prev
      = (ids.filter (is_enabled s)).map (fun i => (pin_of s i, pulse_of s i)) := by
  induction ids generalizing prev with
  | nil => simp [pwm_clear_loop, low_times]
  | cons i ids ih =>
    have hi : (channel_at s i).gpio ≤ 27 := hpin i (List.mem_cons_self _ _)
    have hrest : ∀ j ∈ ids, pin_of s j ≤ 27 := fun j hj => hpin j (List.mem_cons_of_mem _ hj)
    rw [List.pairwise_cons] at hsorted
    obtain ⟨hle, hsorted⟩ := hsorted
    have hbi := hb i (List.mem_cons_self _ _)
    unfold pulse_of at hbi
    by_cases he : (channel_at s i).enabled = 0
    · have hen : is_enabled s i = false := by simp [is_enabled, he]
      rw [pwm_clear_loop]
      simp only [he, if_true, List.filter_cons, hen, Bool.false_eq_true, if_false]
      exact ih prev hrest hsorted hprev (fun j hj => hb j (List.mem_cons_of_mem _ hj))
    · have hen : is_enabled s i = true := by simp [is_enabled, he]
      have hd : toU32 ((channel_at s i).pulse_us - prev) = (channel_at s i).pulse_us - prev := by
        unfold toU32
        omega
      have hp : toU32 (channel_at s i).pulse_us = (channel_at s i).pulse_us := by
        unfold toU32
        omega
      have hnext := ih (channel_at s i).pulse_us hrest hsorted (by omega)
        (fun j hj => ⟨hle j hj, (hb j (List.mem_cons_of_mem _ hj)).2⟩)
      have hnil : ∀ X : List HwOp, ([] : List HwOp).append X = X := fun X => rfl
      rw [pwm_clear_loop]
      simp only [he, if_false, List.filter_cons, hen, if_true, gpio_clear_valid _ hi, hd, hp]
      split_ifs with hpos
      · have hsum : prev + ((channel_at s i).pulse_us - prev) = (channel_at s i).pulse_us := by
          omega
        simp only [List.append_assoc, List.singleton_append, List.nil_append, low_times,
          List.map_cons, hsum, hnil, hnext]
        rfl
      · have heq : prev = (channel_at s i).pulse_us := by omega
        simp only [List.append_assoc, List.singleton_append, List.nil_append, low_times,
          List.map_cons, heq, hnil, hnext]
        rfl

theorem sorted_channels_mem (s : ServoController) (hn : s.num_channels = 8) (i : Nat)
    (hi : i ∈ sorted_channels s) : i < 8 := by
  have hperm := (sorted_channels_sorted s).2
  rw [hn] at hperm
  exact List.mem_range.mp (hperm.subset hi)

theorem pwm_run_frame_eq (s : ServoController) (hn : s.num_channels = 8)
    (hpin : ∀ i < 8, pin_of s i ≤ 27) :
    pwm_run_frame s
      = ((List.range 8).filter (is_enabled s)).map (fun i => HwOp.set_high (pin_of s i))
        ++ pwm_clear_loop s ((sorted_channels s).filter (is_enabled s)) 0 := by
  unfold pwm_run_frame
  rw [pwm_set_high_eq s hn hpin, ← clear_loop_enabled_only]

/-! ## Letter case -/

theorem toupper_eq_zero (x : Nat) : (toupper x != 0) = (x != 0) := by
  rw [Bool.eq_iff_iff]
  simp only [bne_iff_ne, ne_eq]
  unfold toupper
  split_ifs with h <;> constructor <;> intro <;> omega

theorem toupper_eq_newline (x : Nat) : toupper x = 10 ↔ x = 10 := by
  unfold toupper
  split_ifs with h <;> omega

/-- Upper-casing commutes with everything `parse_command` does before it: the
working copy of a line is computed from the upper-cased line alone. -/
theorem working_copy_of_upper (s : List Nat) :
    working_copy s
      = if ((cstring (str_toupper s)).take (MAX_COMMAND_LENGTH - 1)).getLast? = some 10
        then ((cstring (str_toupper s)).take (MAX_COMMAND_LENGTH - 1)).dropLast
        else (cstring (str_toupper s)).take (MAX_COMMAND_LENGTH - 1) := by
  have hc : cstring (str_toupper s) = str_toupper (cstring s) := by
    unfold cstring str_toupper
    have hf : ((fun c => c != 0) ∘ toupper) = (fun c => c != 0) :=
      funext toupper_eq_zero
    rw [List.takeWhile_map, hf]
  have hlast : ∀ l : List Nat, (l.map toupper).getLast? = some 10 ↔ l.getLast? = some 10 := by
    intro l
    rw [List.getLast?_map]
    cases l.getLast? with
    | none => simp
    | some y => simp [toupper_eq_newline]
  unfold working_copy
  rw [hc]
  unfold str_toupper
  rw [← List.map_take]
  by_cases h : ((cstring s).take (MAX_COMMAND_LENGTH - 1)).getLast? = some 10
  · rw [if_pos h, if_pos ((hlast _).mpr h), List.map_dropLast]
  · rw [if_neg h, if_neg (fun h' => h ((hlast _).mp h'))]

theorem working_copy_case (s s' : List Nat) (h : str_toupper s = str_toupper s') :
    working_copy s = working_copy s' := by
  rw [working_copy_of_upper, working_copy_of_upper, h]

theorem parse_command_working_copy (s s' : List Nat) (cmd : Command)
    (h : working_copy s = working_copy s') :
    parse_command s cmd = parse_command s' cmd := by
  unfold working_copy at h
  unfold parse_command
  simp only []
  rw [h]

theorem toupper_swap_case (c : Nat) : toupper (swap_case c) = toupper c := by
  unfold toupper swap_case
  split_ifs <;> omega

theorem str_toupper_recase (flags : List Bool) (s : List Nat) :
    str_toupper (recase flags s) = str_toupper s := by
  induction s generalizing flags with
  | nil => cases flags <;> rfl
  | cons c cs ih =>
    cases flags with
    | nil => rfl
    | cons f fs =>
      have hrest := ih fs
      unfold str_toupper at hrest ⊢
      cases f
      · simp [recase, hrest]
      · simp [recase, hrest, toupper_swap_case]

/-! ## Stability of the bubble sort -/

theorem bubble_step_length (s : ServoController) (l : List Nat) (j : Nat) :
    (bubble_step s l j).length = l.length := by
  unfold bubble_step
  simp only []
  split_ifs <;> simp

/-- A list cut in front of two neighbours. -/
theorem split_at_neighbours (l : List Nat) (j : Nat) (hj : j + 1 < l.length) :
    l = l.take j ++ l[j] :: l[j + 1] :: l.drop (j + 2) := by
  have h1 : l.drop j = l[j] :: l.drop (j + 1) := List.drop_eq_getElem_cons (by omega)
  have h2 : l.drop (j + 1) = l[j + 1] :: l.drop (j + 2) := List.drop_eq_getElem_cons hj
  conv_lhs => rw [← List.take_append_drop j l, h1, h2]

/-- A compare-and-swap keeps every relation that holds between entries of
different pulse width regardless of their order. -/
theorem bubble_step_pairwise (s : ServoController) (R : Nat → Nat → Prop)
    (hR : ∀ a b, pulse_of s a > pulse_of s b → R b a)
    (l : List Nat) (j : Nat) (hj : j + 1 < l.length) (h : l.Pairwise R) :
    (bubble_step s l j).Pairwise R := by
  obtain ⟨pre, a, b, post, hl, hlen⟩ :
      ∃ pre a b post, l = pre ++ a :: b :: post ∧ pre.length = j :=
    ⟨l.take j, l[j], l[j + 1], l.drop (j + 2), split_at_neighbours l j hj, by
      rw [List.length_take]
      omega⟩
  subst hl
  have hstep := bubble_step_at s pre a b post
  rw [hlen] at hstep
  rw [hstep]
  by_cases hgt : pulse_of s a > pulse_of s b
  · rw [if_pos hgt]
    rw [List.pairwise_append] at h ⊢
    obtain ⟨hpre, hmid, hcross⟩ := h
    rw [List.pairwise_cons, List.pairwise_cons] at hmid
    obtain ⟨ha, hb, hpost⟩ := hmid
    refine ⟨hpre, ?_, ?_⟩
    · rw [List.pairwise_cons, List.pairwise_cons]
      refine ⟨?_, ?_, hpost⟩
      · intro x hx
        rcases List.mem_cons.mp hx with rfl | hx
        · exact hR _ _ hgt
        · exact hb x hx
      · intro x hx
        exact ha x (List.mem_cons_of_mem _ hx)
    · intro x hx y hy
      apply hcross x hx y
      simp only [List.mem_cons] at hy ⊢
      tauto
  · rw [if_neg hgt]
    exact h

theorem bubble_inner_pairwise (s : ServoController) (R : Nat → Nat → Prop)
    (hR : ∀ a b, pulse_of s a > pulse_of s b → R b a)
    (m : Nat) (l : List Nat) (hm : m < l.length) (h : l.Pairwise R) :
    ((List.range m).foldl (bubble_step s) l).Pairwise R ∧
    ((List.range m).foldl (bubble_step s) l).length = l.length := by
  induction m with
  | zero => exact ⟨h, rfl⟩
  | succ m ih =>
    obtain ⟨hp, hl⟩ := ih (by omega)
    rw [List.range_succ, List.foldl_append]
    simp only [List.foldl_cons, List.foldl_nil]
    exact ⟨bubble_step_pairwise s R hR _ m (by omega) hp, by rw [bubble_step_length, hl]⟩

theorem bubble_outer_pairwise (s : ServoController) (R : Nat → Nat → Prop)
    (hR : ∀ a b, pulse_of s a > pulse_of s b → R b a)
    (n k : Nat) (l : List Nat) (hl : l.length = n) (hk : k ≤ n - 1) (h : l.Pairwise R) :
    ((List.range k).foldl
        (fun sorted i => (List.range (n - i - 1)).foldl (bubble_step s) sorted) l).Pairwise R ∧
    ((List.range k).foldl
        (fun sorted i => (List.range (n - i - 1)).foldl (bubble_step s) sorted) l).length
      = n := by
  induction k with
  | zero => exact ⟨h, hl⟩
  | succ k ih =>
    obtain ⟨hp, hlen⟩ := ih (by omega)
    rw [List.range_succ, List.foldl_append]
    simp only [List.foldl_cons, List.foldl_nil]
    obtain ⟨h1, h2⟩ := bubble_inner_pairwise s R hR (n - k - 1) _ (by omega) hp
    exact ⟨h1, by rw [h2, hlen]⟩

/-- The sorted index array keeps channels of equal pulse width in ascending
order of their ids. -/
theorem sorted_channels_stable (s : ServoController) :
    (sorted_channels s).Pairwise (fun a b => pulse_of s a = pulse_of s b → a < b) := by
  unfold sorted_channels bubble_sort
  simp only []
  refine (bubble_outer_pairwise s _ ?_ s.num_channels.toNat (s.num_channels.toNat - 1)
    (List.range s.num_channels.toNat) (by simp) (le_refl _) ?_).1
  · intro a b hgt heq
    omega
  · apply List.Pairwise.imp _ (List.pairwise_lt_range _)
    intro a b hab _
    exact hab

/-! ## Controllers reachable through commands -/

/-- The pulse field that `parse_command` leaves behind is a `uint16_t` value. -/
theorem parse_pulse_range (l : List Nat) (cmd : Command)
    (h : 0 ≤ cmd.pulse_value ∧ cmd.pulse_value < 65536) :
    0 ≤ (parse_command l cmd).2.pulse_value ∧ (parse_command l cmd).2.pulse_value < 65536 := by
  unfold parse_command parse_fail
  simp only []
  repeat' split
  all_goals first
    | exact h
    | (simp only [toU16]; omega)

theorem toI16_le (x : Int) : toI16 x ≤ 32767 := by
  unfold toI16
  omega

theorem startup_bounds : reachable_bounds startup := by
  refine ⟨rfl, fun i => ?_⟩
  rw [startup_channel]
  decide

/-- One command keeps the bounds. -/
theorem reachable_bounds_step (s : ServoController) (line : List Nat)
    (h : reachable_bounds s) : reachable_bounds (handle_command s line).controller := by
  obtain ⟨hn, hall⟩ := h
  have hpv := parse_pulse_range line blank_command (by decide)
  refine ⟨by rw [(handle_command_frame_aux s line).2.1, hn], fun i => ?_⟩
  have hi := hall i
  unfold handle_command
  generalize parse_command line blank_command = p at hpv ⊢
  obtain ⟨ok, cmd⟩ := p
  obtain ⟨ty, chn, g, mn, mx, pv⟩ := cmd
  simp only [] at hpv
  cases ok
  · simpa [send_response_controller] using hi
  · simp only [Bool.not_true, Bool.false_eq_true, if_false]
    by_cases h8 : chn ≥ MAX_SERVO_CHANNELS
    · simpa [h8, send_response_controller] using hi
    · rw [if_neg h8]
      have hc := hall chn.toNat
      have h16 := toI16_le mx
      cases ty <;> simp only [] <;> (try split_ifs) <;>
        simp only [send_response_controller, channel_at_store] <;>
        (try split_ifs) <;>
        simp_all [MAX_GPIO_PIN, SERVO_NEUTRAL_US, SERVO_MAX_US, SERVO_MIN_US]
      have hbound := hall i
      unfold toI16
      omega

theorem reachable_bounds_run (lines : List (List Nat)) (s : ServoController)
    (h : reachable_bounds s) : reachable_bounds (run_commands s lines) := by
  induction lines generalizing s with
  | nil => exact h
  | cons l ls ih => exact ih _ (reachable_bounds_step s l h)

/-! ## No wrap-around in the sleep deltas -/

theorem sleeps_append (a b : List HwOp) : sleeps (a ++ b) = sleeps a ++ sleeps b := by
  induction a with
  | nil => rfl
  | cons op a ih =>
    cases op <;> simp [sleeps, ih]

theorem sleeps_gpio_clear (pin : Int) : sleeps (gpio_clear pin) = [] := by
  unfold gpio_clear
  split_ifs <;> rfl

/-- On channels in ascending order of pulse width, none below the baseline,
the 32-bit deltas of step 3 are the true differences. -/
theorem clear_loop_exact (s : ServoController) (ids : List Nat) (prev : Int)
    (hsorted : ids.Pairwise (fun a b => pulse_of s a ≤ pulse_of s b))
    (hprev : 0 ≤ prev)
    (hb : ∀ i ∈ ids, prev ≤ pulse_of s i ∧ pulse_of s i ≤ 32767) :
    pwm_clear_loop s ids prev = pwm_clear_loop_exact s ids prev := by
  induction ids generalizing prev with
  | nil => rfl
  | cons i ids ih =>
    rw [List.pairwise_cons] at hsorted
    obtain ⟨hle, hsorted⟩ := hsorted
    have hbi := hb i (List.mem_cons_self _ _)
    unfold pulse_of at hbi
    rw [pwm_clear_loop, pwm_clear_loop_exact]
    by_cases he : (channel_at s i).enabled = 0
    · simp only [he, if_true]
      exact ih prev hsorted hprev (fun j hj => hb j (List.mem_cons_of_mem _ hj))
    · have hd : toU32 ((channel_at s i).pulse_us - prev) = (channel_at s i).pulse_us - prev := by
        unfold toU32
        omega
      have hp : toU32 (channel_at s i).pulse_us = (channel_at s i).pulse_us := by
        unfold toU32
        omega
      simp only [he, if_false, hd, hp]
      rw [ih (channel_at s i).pulse_us hsorted (by omega)
        (fun j hj => ⟨hle j hj, (hb j (List.mem_cons_of_mem _ hj)).2⟩)]

/-- Every sleep of the exact loop is positive. -/
theorem clear_loop_exact_positive (s : ServoController) (ids : List Nat) (prev : Int) :
    ∀ us ∈ sleeps (pwm_clear_loop_exact s ids prev), 0 < us := by
  induction ids generalizing prev with
  | nil => intro us hus; simp [pwm_clear_loop_exact, sleeps] at hus
  | cons i ids ih =>
    intro us hus
    rw [pwm_clear_loop_exact] at hus
    by_cases he : (channel_at s i).enabled = 0
    · simp only [he, if_true] at hus
      exact ih prev us hus
    · simp only [he, if_false, sleeps_append, sleeps_gpio_clear, List.append_nil,
        List.mem_append] at hus
      rcases hus with hus | hus
      · split_ifs at hus with hpos
        · simp only [sleeps, List.mem_singleton] at hus
          omega
        · simp [sleeps] at hus
      · exact ih _ us hus

/-- The sleeps of the exact loop add up to the distance from the baseline to
the largest pulse width among the enabled channels of the list. -/
theorem clear_loop_exact_sum (s : ServoController) (ids : List Nat) (prev : Int)
    (hsorted : ids.Pairwise (fun a b => pulse_of s a ≤ pulse_of s b))
    (hb : ∀ i ∈ ids, prev ≤ pulse_of s i) :
    ∃ m, (sleeps (pwm_clear_loop_exact s ids prev)).sum = m - prev ∧
      ((m = prev ∧ ∀ i ∈ ids, is_enabled s i = false) ∨
       (∃ i ∈ ids, is_enabled s i = true ∧ m = pulse_of s i ∧
          ∀ j ∈ ids, is_enabled s j = true → pulse_of s j ≤ pulse_of s i)) := by
  induction ids generalizing prev with
  | nil => exact ⟨prev, by simp [pwm_clear_loop_exact, sleeps], Or.inl ⟨rfl, by simp⟩⟩
  | cons i ids ih =>
    rw [List.pairwise_cons] at hsorted
    obtain ⟨hle, hsorted⟩ := hsorted
    have hbi := hb i (List.mem_cons_self _ _)
    rw [pwm_clear_loop_exact]
    by_cases he : (channel_at s i).enabled = 0
    · have hen : is_enabled s i = false := by simp [is_enabled, he]
      obtain ⟨m, hsum, hm⟩ := ih prev hsorted (fun j hj => hb j (List.mem_cons_of_mem _ hj))
      simp only [he, if_true]
      refine ⟨m, hsum, ?_⟩
      rcases hm with ⟨hmp, hnone⟩ | ⟨k, hk, hken, hmk, hmax⟩
      · left
        refine ⟨hmp, fun j hj => ?_⟩
        rcases List.mem_cons.mp hj with rfl | hj
        · exact hen
        · exact hnone j hj
      · right
        refine ⟨k, List.mem_cons_of_mem _ hk, hken, hmk, fun j hj hjen => ?_⟩
        rcases List.mem_cons.mp hj with rfl | hj
        · rw [hen] at hjen
          exact absurd hjen (by simp)
        · exact hmax j hj hjen
    · have hen : is_enabled s i = true := by simp [is_enabled, he]
      obtain ⟨m, hsum, hm⟩ := ih (channel_at s i).pulse_us hsorted (fun j hj => hle j hj)
      have hfirst : (sleeps (if (channel_at s i).pulse_us - prev > 0
          then [HwOp.sleep ((channel_at s i).pulse_us - prev)] else [])).sum
          = (channel_at s i).pulse_us - prev := by
        unfold pulse_of at hbi
        split_ifs with hpos
        · simp [sleeps]
        · simp only [sleeps, List.sum_nil]
          omega
      simp only [he, if_false, sleeps_append, sleeps_gpio_clear, List.append_nil,
        List.sum_append, hfirst, hsum]
      refine ⟨m, by omega, ?_⟩
      right
      rcases hm with ⟨hmp, hnone⟩ | ⟨k, hk, hken, hmk, hmax⟩
      · refine ⟨i, List.mem_cons_self _ _, hen, hmp, fun j hj hjen => ?_⟩
        rcases List.mem_cons.mp hj with rfl | hj
        · exact le_refl _
        · rw [hnone j hj] at hjen
          exact absurd hjen (by simp)
      · refine ⟨k, List.mem_cons_of_mem _ hk, hken, hmk, fun j hj hjen => ?_⟩
        rcases List.mem_cons.mp hj with rfl | hj
        · exact hle k hk
        · exact hmax j hj hjen

/-! ## The form of the replies -/

theorem utoa_no_newline (n : Nat) : (utoa n).count 10 = 0 := by
  rw [List.count_eq_zero]
  intro h
  have := utoa_digits n 10 h
  omega

theorem one_line_ok : one_line_reply (ascii "OK\n") :=
  ⟨Or.inl rfl, by decide, by decide⟩

theorem one_line_error (msg : List Nat) (h : msg.count 10 = 0) :
    one_line_reply (ascii "ERROR " ++ msg ++ ascii "\n") := by
  refine ⟨Or.inr (Or.inl ⟨msg, List.count_eq_zero.mp h, rfl⟩), ?_, ?_⟩
  · have h1 : (ascii "ERROR ").count 10 = 0 := by decide
    have h2 : (ascii "\n").count 10 = 1 := by decide
    simp only [List.count_append, h, h1, h2]
  · rw [List.getLast?_append]
    rfl

theorem one_line_range (a b : Nat) :
    one_line_reply (ascii "RANGE " ++ utoa a ++ ascii " " ++ utoa b ++ ascii "\n") := by
  refine ⟨Or.inr (Or.inr (Or.inl ⟨a, b, rfl⟩)), ?_, ?_⟩
  · have h1 : (ascii "RANGE ").count 10 = 0 := by decide
    have h2 : (ascii "\n").count 10 = 1 := by decide
    have h3 : (ascii " ").count 10 = 0 := by decide
    simp only [List.count_append, utoa_no_newline, h1, h2, h3]
  · rw [List.getLast?_append]
    rfl

theorem one_line_pulse (v : Nat) :
    one_line_reply (ascii "PULSE " ++ utoa v ++ ascii "\n") := by
  refine ⟨Or.inr (Or.inr (Or.inr (Or.inl ⟨v, rfl⟩))), ?_, ?_⟩
  · have h1 : (ascii "PULSE ").count 10 = 0 := by decide
    have h2 : (ascii "\n").count 10 = 1 := by decide
    simp only [List.count_append, utoa_no_newline, h1, h2]
  · rw [List.getLast?_append]
    rfl

theorem one_line_state (p : Nat) (e : Bool) :
    one_line_reply
      (ascii "GPIO " ++ utoa p ++ ascii " ENABLE " ++ (if e then ascii "1" else ascii "0")
        ++ ascii "\n") := by
  have he : (if e then ascii "1" else ascii "0") = utoa (if e then 1 else 0) := by
    cases e <;> decide
  rw [he]
  refine ⟨Or.inr (Or.inr (Or.inr (Or.inr ⟨p, if e then 1 else 0, by cases e <;> decide, rfl⟩))),
    ?_, ?_⟩
  · have h1 : (ascii "GPIO ").count 10 = 0 := by decide
    have h2 : (ascii "\n").count 10 = 1 := by decide
    have h3 : (ascii " ENABLE ").count 10 = 0 := by decide
    simp only [List.count_append, utoa_no_newline, h1, h2, h3]
  · rw [List.getLast?_append]
    rfl

/-- Every reply of `handle_command` is one well-formed line. -/
theorem handle_command_reply_form (s : ServoController) (line : List Nat)
    (hg : ∀ i < 8, 0 ≤ (channel_at s i).gpio ∧ (channel_at s i).gpio < 256) :
    one_line_reply (handle_command s line).reply := by
  have e1 : one_line_reply (ascii "ERROR Invalid command\n") :=
    one_line_error (ascii "Invalid command") (by decide)
  have e2 : one_line_reply (ascii "ERROR Invalid channel\n") :=
    one_line_error (ascii "Invalid channel") (by decide)
  have e3 : one_line_reply (ascii "ERROR Invalid GPIO pin\n") :=
    one_line_error (ascii "Invalid GPIO pin") (by decide)
  have e4 : one_line_reply (ascii "ERROR Channel not configured\n") :=
    one_line_error (ascii "Channel not configured") (by decide)
  have e5 : one_line_reply (ascii "ERROR Invalid range: min must be less than max\n") :=
    one_line_error (ascii "Invalid range: min must be less than max") (by decide)
  have e6 : one_line_reply (ascii "ERROR Pulse value out of range\n") :=
    one_line_error (ascii "Pulse value out of range") (by decide)
  have e7 : one_line_reply (ascii "ERROR Unknown command\n") :=
    one_line_error (ascii "Unknown command") (by decide)
  unfold handle_command
  generalize parse_command line blank_command = p
  obtain ⟨ok, cmd⟩ := p
  obtain ⟨ty, chn, g, mn, mx, pv⟩ := cmd
  cases ok
  · simp only [Bool.not_false, if_true, send_invalid_command]
    exact e1
  · simp only [Bool.not_true, Bool.false_eq_true, if_false]
    by_cases h8 : chn ≥ MAX_SERVO_CHANNELS
    · simp only [h8, if_true, send_invalid_channel]
      exact e2
    · rw [if_neg h8]
      have hlt : chn.toNat < 8 := by
        unfold MAX_SERVO_CHANNELS at h8
        omega
      cases ty <;> simp only [] <;> (try split_ifs) <;>
        simp only [send_ok, send_invalid_pin, send_not_configured, send_invalid_range,
          send_out_of_range, send_unknown_command,
          send_range _ _ _ _ (toU16_bounds _) (toU16_bounds _),
          send_pulse _ _ _ (toU16_bounds _), send_state _ _ _ _ (hg _ hlt)] <;>
        first
          | exact one_line_ok
          | exact e3
          | exact e4
          | exact e5
          | exact e6
          | exact e7
          | exact one_line_range _ _
          | exact one_line_pulse _
          | exact one_line_state _ _

/-- The return value and buffer content of `format_response` in terms of the
text it is asked to print. -/
theorem format_response_result (resp : Response) (buffer : List Nat) (n : Nat) :
    ((response_text resp).length < n →
      format_response resp buffer n
        = (((response_text resp).length : Int), response_text resp)) ∧
    ((format_response resp buffer n).1 = -1 ↔ n ≤ (response_text resp).length) := by
  constructor
  · intro hfit
    unfold format_response
    rw [if_neg (by omega)]
    simp only []
    rw [if_neg (by omega), List.take_of_length_le (by omega)]
  · unfold format_response
    by_cases h0 : n = 0
    · rw [if_pos h0]
      simp [h0]
    · rw [if_neg h0]
      simp only []
      by_cases hfit : n ≤ (response_text resp).length
      · rw [if_pos (Or.inr (by omega))]
        simp [hfit]
      · rw [if_neg (by omega)]
        simp only []
        constructor
        · intro h
          omega
        · intro h
          omega

/-- The text that `format_response` prints, by response type. -/
theorem response_text_forms (resp : Response) :
    (resp.type = ResponseType.RESP_OK ∧ response_text resp = ascii "OK\n") ∨
    (resp.type = ResponseType.RESP_ERROR ∧
      response_text resp = ascii "ERROR " ++ resp.error_message ++ ascii "\n") ∨
    (resp.type = ResponseType.RESP_RANGE ∧
      response_text resp
        = ascii "RANGE " ++ utoa resp.range_min.toNat ++ ascii " "
            ++ utoa resp.range_max.toNat ++ ascii "\n") ∨
    (resp.type = ResponseType.RESP_PULSE ∧
      response_text resp = ascii "PULSE " ++ utoa resp.pulse_value.toNat ++ ascii "\n") ∨
    (resp.type = ResponseType.RESP_STATE ∧
      response_text resp
        = ascii "GPIO " ++ utoa resp.state_gpio.toNat ++ ascii " ENABLE "
            ++ (if resp.state_enabled then ascii "1" else ascii "0") ++ ascii "\n") := by
  obtain ⟨ty, msg, a, b, v, g, e⟩ := resp
  cases ty
  · exact Or.inl ⟨rfl, rfl⟩
  · exact Or.inr (Or.inl ⟨rfl, rfl⟩)
  · exact Or.inr (Or.inr (Or.inl ⟨rfl, rfl⟩))
  · exact Or.inr (Or.inr (Or.inr (Or.inl ⟨rfl, rfl⟩)))
  · refine Or.inr (Or.inr (Or.inr (Or.inr ⟨rfl, ?_⟩)))
    cases e <;> rfl

/-! ## Lines read from a client -/

theorem split_lines_no_newline (l : List Nat) (h : ∀ x ∈ l, x ≠ 10) :
    split_lines l = ([], l) := by
  induction l with
  | nil => rfl
  | cons c cs ih =>
    have hc : c ≠ 10 := h c (List.mem_cons_self _ _)
    have hcs := ih (fun x hx => h x (List.mem_cons_of_mem _ hx))
    rw [split_lines, if_neg hc, hcs]

theorem split_lines_line (l r : List Nat) (h : ∀ x ∈ l, x ≠ 10) :
    split_lines (l ++ 10 :: r) = (l :: (split_lines r).1, (split_lines r).2) := by
  induction l with
  | nil =>
    rw [List.nil_append, split_lines, if_pos rfl]
  | cons c cs ih =>
    have hc : c ≠ 10 := h c (List.mem_cons_self _ _)
    have hcs := ih (fun x hx => h x (List.mem_cons_of_mem _ hx))
    rw [List.cons_append, split_lines, if_neg hc, hcs]

/-- A text with a newline, cut at its first newline the way `strchr` finds
it. -/
theorem first_newline (buf : List Nat) (h : 10 ∈ buf) :
    ∃ line rest, buf = line ++ 10 :: rest ∧ (∀ x ∈ line, x ≠ 10) ∧
      buf.takeWhile (fun c => c != 10) = line ∧ buf.drop (line.length + 1) = rest := by
  induction buf with
  | nil => simp at h
  | cons c cs ih =>
    by_cases hc : c = 10
    · subst hc
      exact ⟨[], cs, rfl, by simp, by simp, by simp⟩
    · have hcs : 10 ∈ cs := by
        rcases List.mem_cons.mp h with h | h
        · exact absurd h.symm hc
        · exact h
      obtain ⟨line, rest, hsplit, hline, htake, hdrop⟩ := ih hcs
      refine ⟨c :: line, rest, by rw [hsplit]; rfl, ?_, ?_, ?_⟩
      · intro x hx
        rcases List.mem_cons.mp hx with rfl | hx
        · exact hc
        · exact hline x hx
      · have hp : (c != 10) = true := by simp [hc]
        rw [List.takeWhile_cons]
        simp only [hp, if_true, htake]
      · simpa using hdrop

theorem run_commands_cons (s : ServoController) (l : List Nat) (ls : List (List Nat)) :
    run_commands s (l :: ls) = run_commands (handle_command s l).controller ls := rfl

theorem run_replies_cons (s : ServoController) (l : List Nat) (ls : List (List Nat)) :
    run_replies s (l :: ls)
      = (handle_command s l).reply :: run_replies (handle_command s l).controller ls := rfl

/-- The loop of `handle_client_data` on a text without NUL bytes: one
`handle_command` call per newline-terminated line, in order, and the text after
the last newline is what remains at `line_start`. -/
theorem client_loop_lines (fuel : Nat) (s : ServoController) (buf : List Nat)
    (hnz : ∀ x ∈ buf, x ≠ 0) (hfuel : buf.length ≤ fuel) :
    (client_loop fuel s buf).1 = run_commands s (split_lines buf).1 ∧
    (client_loop fuel s buf).2.1 = (split_lines buf).1 ∧
    (client_loop fuel s buf).2.2.1.map Handled.reply = run_replies s (split_lines buf).1 ∧
    (client_loop fuel s buf).2.2.2 = (split_lines buf).2 := by
  induction fuel generalizing s buf with
  | zero =>
    have hnil : buf = [] := List.length_eq_zero.mp (by omega)
    subst hnil
    exact ⟨rfl, rfl, rfl, rfl⟩
  | succ fuel ih =>
    rw [client_loop, cstring_eq buf hnz]
    by_cases hnl : 10 ∈ buf
    · obtain ⟨line, rest, hsplit, hline, htake, hdrop⟩ := first_newline buf hnl
      rw [if_pos hnl]
      simp only [htake, hdrop]
      have hrest : ∀ x ∈ rest, x ≠ 0 := by
        intro x hx
        apply hnz x
        rw [hsplit]
        simp [hx]
      have hlen : rest.length ≤ fuel := by
        have : buf.length = line.length + (rest.length + 1) := by
          rw [hsplit, List.length_append, List.length_cons]
        omega
      obtain ⟨h1, h2, h3, h4⟩ := ih (handle_command s line).controller rest hrest hlen
      have hsl : split_lines buf = (line :: (split_lines rest).1, (split_lines rest).2) := by
        rw [hsplit]
        exact split_lines_line line rest hline
      rw [hsl]
      simp only [run_commands_cons, run_replies_cons, List.map_cons, h1, h2, h3, h4]
      exact ⟨trivial, trivial, trivial, trivial⟩
    · rw [if_neg hnl, split_lines_no_newline buf (fun x hx hx10 => hnl (hx10 ▸ hx))]
      exact ⟨rfl, rfl, rfl, rfl⟩

theorem split_lines_rest_mem (l : List Nat) : ∀ x ∈ (split_lines l).2, x ∈ l := by
  induction l with
  | nil => intro x hx; simp [split_lines] at hx
  | cons c cs ih =>
    intro x hx
    rw [split_lines] at hx
    split_ifs at hx with hc
    · exact List.mem_cons_of_mem _ (ih x hx)
    · split at hx
      · rcases List.mem_cons.mp hx with rfl | hx
        · exact List.mem_cons_self _ _
        · exact List.mem_cons_of_mem _ (ih x hx)
      · exact List.mem_cons_of_mem _ (ih x hx)

theorem run_replies_length (s : ServoController) (ls : List (List Nat)) :
    (run_replies s ls).length = ls.length := by
  induction ls generalizing s with
  | nil => rfl
  | cons l ls ih => simp [run_replies, ih]

/-- What `handle_client_data` does with a NUL-free chunk that fits the
buffer. -/
theorem handle_client_data_fits (s : ServoController) (b d : List Nat)
    (hb : ∀ x ∈ b, x ≠ 0) (hd : ∀ x ∈ d, x ≠ 0) (hne : d ≠ [])
    (hlen : b.length + d.length ≤ 255) :
    handle_client_data s b d
      = { controller := (client_loop (b ++ d).length s (b ++ d)).1,
          buffer := (split_lines (b ++ d)).2,
          connected := true,
          lines := (client_loop (b ++ d).length s (b ++ d)).2.1,
          calls := (client_loop (b ++ d).length s (b ++ d)).2.2.1 } := by
  have hnz : ∀ x ∈ b ++ d, x ≠ 0 := by
    intro x hx
    rcases List.mem_append.mp hx with hx | hx
    · exact hb x hx
    · exact hd x hx
  have hdl : d.length ≠ 0 := fun h => hne (List.length_eq_zero.mp h)
  have htake : d.take (MAX_COMMAND_LENGTH - 1) = d :=
    List.take_of_length_le (by unfold MAX_COMMAND_LENGTH; omega)
  have hcopy : d.take (if d.length < MAX_COMMAND_LENGTH - b.length - 1 then d.length
      else MAX_COMMAND_LENGTH - b.length - 1) = d := by
    apply List.take_of_length_le
    unfold MAX_COMMAND_LENGTH
    split_ifs <;> omega
  have hrest := (client_loop_lines (b ++ d).length s (b ++ d) hnz (le_refl _)).2.2.2
  have hbuf : cstring (client_loop (b ++ d).length s (b ++ d)).2.2.2 = (split_lines (b ++ d)).2 := by
    rw [hrest]
    exact cstring_eq _ (fun x hx => hnz x (split_lines_rest_mem _ x hx))
  unfold handle_client_data
  simp only [htake, hdl, if_false, hcopy, hbuf]

/-! ## Main theorems -/

/-- C1 (evaluation at the failing input): from the startup state the lines
`SETUP 0 GPIO 17`, `SET 0 RANGE 100 3000`, `SET 0 PULSE 3000`, `ENABLE 0` are
all answered `OK` by `handle_command` and leave channel 0 enabled with
`pulse_us = 3000`; the next frame holds pin 17 high for 3000 microseconds. -/
theorem handle_command_pulse_above_absolute_max :
    (channel_at
        (run_commands startup
          [ascii "SETUP 0 GPIO 17", ascii "SET 0 RANGE 100 3000", ascii "SET 0 PULSE 3000",
           ascii "ENABLE 0"]) 0)
      = { gpio := 17, enabled := 1, min_us := 100, max_us := 3000, pulse_us := 3000 } ∧
    pwm_run_frame
        (run_commands startup
          [ascii "SETUP 0 GPIO 17", ascii "SET 0 RANGE 100 3000", ascii "SET 0 PULSE 3000",
           ascii "ENABLE 0"])
      = [HwOp.set_high 17, HwOp.sleep 3000, HwOp.set_low 17] := by
  decide

/-- C2 (evaluation at the failing input): on a channel in its default state
`servo_set_range(channel, 100, 200)` passes the `min_us < max_us` check, raises
`min_us` to 500, keeps `max_us = 200`, and then pulls the pulse down to 200: the
stored range is inverted and the pulse lies below the absolute minimum. -/
theorem servo_set_range_inverted_range :
    servo_set_range
        { gpio := 17, enabled := 0, min_us := 1000, max_us := 2000, pulse_us := 1500 }
        100 200
      = (false, { gpio := 17, enabled := 0, min_us := 500, max_us := 200, pulse_us := 200 }) := by
  decide

/-- C3: for any channel state and any request `v`, `servo_set_pulse` stores a
pulse within the absolute bounds [500, 2500]; and when the channel's range
satisfies `500 ≤ min_us < max_us ≤ 2500`, the stored pulse lies in
`[max min_us 500, min max_us 2500]`, equals `v` exactly when `v` already lay in
that interval, and the function returns true exactly when the stored pulse
equals `v`. -/
theorem servo_set_pulse_clamps (ch : ServoChannel) (v : Int) :
    (500 ≤ (servo_set_pulse ch v).2.pulse_us ∧ (servo_set_pulse ch v).2.pulse_us ≤ 2500) ∧
    (500 ≤ ch.min_us → ch.min_us < ch.max_us → ch.max_us ≤ 2500 →
      (max ch.min_us 500 ≤ (servo_set_pulse ch v).2.pulse_us ∧
        (servo_set_pulse ch v).2.pulse_us ≤ min ch.max_us 2500) ∧
      ((servo_set_pulse ch v).2.pulse_us = v ↔
        (max ch.min_us 500 ≤ v ∧ v ≤ min ch.max_us 2500)) ∧
      ((servo_set_pulse ch v).1 = true ↔ (servo_set_pulse ch v).2.pulse_us = v)) := by
  simp only [servo_set_pulse, SERVO_ABSOLUTE_MIN, SERVO_ABSOLUTE_MAX, decide_eq_true_eq]
  refine ⟨?_, fun h1 h2 h3 => ?_⟩
  · split_ifs <;> omega
  · rw [max_eq_left h1, min_eq_left h3]
    split_ifs <;> exact ⟨by omega, by constructor <;> intro <;> omega, trivial⟩

/-- C3 (witness): a channel with range [1000, 2000] asked for 2300 stores 2000
and reports clamping; asked for 1200 it stores 1200. -/
theorem servo_set_pulse_clamps_witness :
    (servo_set_pulse
        { gpio := 17, enabled := 1, min_us := 1000, max_us := 2000, pulse_us := 1500 }
        2300).2.pulse_us = 2000 ∧
    ((servo_set_pulse
        { gpio := 17, enabled := 1, min_us := 1000, max_us := 2000, pulse_us := 1500 }
        2300).1 = true ↔
      (servo_set_pulse
        { gpio := 17, enabled := 1, min_us := 1000, max_us := 2000, pulse_us := 1500 }
        2300).2.pulse_us = 2300) :=
  ⟨by decide,
   ((servo_set_pulse_clamps
      { gpio := 17, enabled := 1, min_us := 1000, max_us := 2000, pulse_us := 1500 }
      2300).2 (by decide) (by decide) (by decide)).2.2⟩

/-- C4 (counterexample): on a configured channel with the default range
[1000, 2000], `SET 0 PULSE 3000` is answered with an error, not `OK`, and the
following `GET 0 PULSE` still reports 1500 rather than the clamped 2000. -/
theorem set_pulse_command_rejects_out_of_range :
    (handle_command (run_commands startup [ascii "SETUP 0 GPIO 17"])
        (ascii "SET 0 PULSE 3000")).reply = ascii "ERROR Pulse value out of range\n" ∧
    (handle_command (run_commands startup [ascii "SETUP 0 GPIO 17"])
        (ascii "SET 0 PULSE 3000")).reply ≠ ascii "OK\n" ∧
    (handle_command
        (run_commands startup [ascii "SETUP 0 GPIO 17", ascii "SET 0 PULSE 3000"])
        (ascii "GET 0 PULSE")).reply = ascii "PULSE 1500\n" ∧
    (handle_command
        (run_commands startup [ascii "SETUP 0 GPIO 17", ascii "SET 0 PULSE 3000"])
        (ascii "GET 0 PULSE")).reply ≠ ascii "PULSE 2000\n" := by
  decide

/-- C4 (amended): for a channel `c` with an assigned pin (`gpio ≠ 0`) whose
stored range lies within [500, 2500], and a value `0 ≤ v ≤ 65535`: when
`min_us ≤ v ≤ max_us` the command `SET c PULSE v` replies `OK` and a following
`GET c PULSE` reports `v`; otherwise it replies
`ERROR Pulse value out of range` and leaves the controller unchanged. -/
theorem set_pulse_command_accepts_only_in_range (s : ServoController) (c : Nat) (v : Int)
    (hc : c < 8) (hlen : s.channels.length = 8) (hv : 0 ≤ v ∧ v ≤ 65535)
    (hg : (channel_at s c).gpio ≠ 0)
    (hr : 500 ≤ (channel_at s c).min_us ∧ (channel_at s c).min_us ≤ (channel_at s c).max_us ∧
      (channel_at s c).max_us ≤ 2500) :
    ((channel_at s c).min_us ≤ v ∧ v ≤ (channel_at s c).max_us →
      (handle_command s (line_set_pulse c v)).reply = ascii "OK\n" ∧
      (handle_command (handle_command s (line_set_pulse c v)).controller
          (line_get_pulse c)).reply = ascii "PULSE " ++ itoa v ++ ascii "\n") ∧
    (¬ ((channel_at s c).min_us ≤ v ∧ v ≤ (channel_at s c).max_us) →
      (handle_command s (line_set_pulse c v)).reply = ascii "ERROR Pulse value out of range\n" ∧
      (handle_command s (line_set_pulse c v)).controller = s) := by
  have hint : in_int v := by unfold in_int; omega
  have hu : toU16 v = v := by unfold toU16; omega
  rw [handle_set_pulse s c v hc hint, if_neg hg, hu]
  constructor
  · intro hin
    have hcond : ¬ (v < (channel_at s c).min_us ∨ v > (channel_at s c).max_us) := by omega
    rw [if_neg hcond]
    refine ⟨rfl, ?_⟩
    rw [handle_get_pulse _ c hc, channel_at_store, if_pos ⟨rfl, by omega⟩]
    have hback : toU16 (toI16 v) = v := by unfold toU16 toI16; omega
    have hi : itoa v = utoa v.toNat := by unfold itoa; rw [if_neg (by omega)]
    simp only [hback, hi]
  · intro hout
    have hcond : v < (channel_at s c).min_us ∨ v > (channel_at s c).max_us := by omega
    rw [if_pos hcond]
    exact ⟨rfl, rfl⟩

/-- C4 (witness): channel 0 configured on pin 17 (range [1000, 2000]), value
1200. -/
theorem set_pulse_command_accepts_only_in_range_witness :
    (channel_at (run_commands startup [ascii "SETUP 0 GPIO 17"]) 0).gpio ≠ 0 ∧
    (handle_command (run_commands startup [ascii "SETUP 0 GPIO 17"])
        (line_set_pulse (0 : Nat) 1200)).reply = ascii "OK\n" ∧
    (handle_command
        (handle_command (run_commands startup [ascii "SETUP 0 GPIO 17"])
          (line_set_pulse (0 : Nat) 1200)).controller
        (line_get_pulse (0 : Nat))).reply = ascii "PULSE " ++ itoa 1200 ++ ascii "\n" :=
  ⟨by decide,
   (set_pulse_command_accepts_only_in_range
      (run_commands startup [ascii "SETUP 0 GPIO 17"]) 0 1200
      (by decide) (by decide) (by decide) (by decide) (by decide)).1 (by decide)⟩

/-- C5 (evaluation at the failing input): on a configured channel
`SET 0 RANGE 100 3000` replies `OK` and stores the range (100, 3000) unclamped,
which `GET 0 RANGE` reports; and `SET 0 RANGE 1600 1700` leaves the pulse at
1500, outside the new range. -/
theorem set_range_command_stores_unclamped :
    (handle_command (run_commands startup [ascii "SETUP 0 GPIO 17"])
        (ascii "SET 0 RANGE 100 3000")).reply = ascii "OK\n" ∧
    channel_at
        (run_commands startup [ascii "SETUP 0 GPIO 17", ascii "SET 0 RANGE 100 3000"]) 0
      = { gpio := 17, enabled := 0, min_us := 100, max_us := 3000, pulse_us := 1500 } ∧
    (handle_command
        (run_commands startup [ascii "SETUP 0 GPIO 17", ascii "SET 0 RANGE 100 3000"])
        (ascii "GET 0 RANGE")).reply = ascii "RANGE 100 3000\n" ∧
    channel_at
        (run_commands startup [ascii "SETUP 0 GPIO 17", ascii "SET 0 RANGE 1600 1700"]) 0
      = { gpio := 17, enabled := 0, min_us := 1600, max_us := 1700, pulse_us := 1500 } := by
  decide

/-- C6: for a valid channel `c`, any controller state and `500 ≤ a < b ≤ 2500`,
`SET c RANGE a b` replies `OK` and the following `GET c RANGE` replies exactly
`RANGE a b`; and `servo_set_range` with such arguments stores `min_us = a` and
`max_us = b` on any channel. -/
theorem range_round_trip (s : ServoController) (c : Nat) (a b : Int) (hc : c < 8)
    (hlen : s.channels.length = 8) (ha : 500 ≤ a) (hab : a < b) (hb : b ≤ 2500) :
    (handle_command s (line_set_range c a b)).reply = ascii "OK\n" ∧
    (handle_command (handle_command s (line_set_range c a b)).controller
        (line_get_range c)).reply
      = ascii "RANGE " ++ itoa a ++ ascii " " ++ itoa b ++ ascii "\n" ∧
    (∀ ch : ServoChannel,
      (servo_set_range ch a b).2.min_us = a ∧ (servo_set_range ch a b).2.max_us = b) := by
  have hia : in_int a := by unfold in_int; omega
  have hib : in_int b := by unfold in_int; omega
  have hua : toU16 a = a := by unfold toU16; omega
  have hub : toU16 b = b := by unfold toU16; omega
  have hba : toU16 (toI16 a) = a := by unfold toU16 toI16; omega
  have hbb : toU16 (toI16 b) = b := by unfold toU16 toI16; omega
  have hta : itoa a = utoa a.toNat := by unfold itoa; rw [if_neg (by omega)]
  have htb : itoa b = utoa b.toNat := by unfold itoa; rw [if_neg (by omega)]
  rw [handle_set_range s c a b hc hia hib, hua, hub, if_neg (by omega)]
  refine ⟨rfl, ?_, ?_⟩
  · rw [handle_get_range _ c hc, channel_at_store, if_pos ⟨rfl, by omega⟩]
    simp only [hba, hbb, hta, htb]
  · intro ch
    have h1 : ¬ (a ≥ b) := by omega
    have h2 : ¬ (a < 500) := by omega
    have h3 : ¬ (b > 2500) := by omega
    simp only [servo_set_range, SERVO_ABSOLUTE_MIN, SERVO_ABSOLUTE_MAX, h1, h2, h3, if_false]
    split_ifs <;> exact ⟨rfl, rfl⟩

/-- C6 (witness): channel 3 of the startup state, range (600, 2400). -/
theorem range_round_trip_witness :
    (handle_command (handle_command startup (line_set_range (3 : Nat) 600 2400)).controller
        (line_get_range (3 : Nat))).reply = ascii "RANGE 600 2400\n" :=
  (range_round_trip startup 3 600 2400 (by decide) (by decide) (by decide) (by decide)
    (by decide)).2.1

/-- C7 (evaluation at the failing input): the channel argument 256 is narrowed
to `uint8_t` 0 before the bound check, so `DISABLE 256` replies `OK`, and
`SETUP 256 GPIO 17` replies `OK` and reconfigures channel 0. -/
theorem channel_256_aliases_channel_0 :
    (handle_command startup (ascii "DISABLE 256")).reply = ascii "OK\n" ∧
    (handle_command startup (ascii "SETUP 256 GPIO 17")).reply = ascii "OK\n" ∧
    channel_at (handle_command startup (ascii "SETUP 256 GPIO 17")).controller 0
      = { gpio := 17, enabled := 0, min_us := 1000, max_us := 2000, pulse_us := 1500 } ∧
    (handle_command startup (ascii "SETUP 256 GPIO 17")).controller ≠ startup := by
  decide

/-- C8 (evaluation at the failing input): the pin argument 273 is narrowed to
`uint8_t` 17 before the check against 27, so `SETUP 0 GPIO 273` replies `OK`,
configures channel 0 on pin 17 and sets that pin to output. -/
theorem setup_pin_273_accepted :
    handle_command startup (ascii "SETUP 0 GPIO 273")
      = { controller := store_channel startup 0
            { gpio := 17, enabled := 0, min_us := 1000, max_us := 2000, pulse_us := 1500 },
          reply := ascii "OK\n",
          hw := [HwOp.set_output 17] } ∧
    (handle_command startup (ascii "SETUP 0 GPIO 273")).controller ≠ startup := by
  decide

/-- C9 (evaluation at the failing input): the range arguments are narrowed to
`uint16_t` before they are compared, so `SET 0 RANGE 65536 1000` (min ≥ max)
replies `OK` and stores the range (0, 1000), and `SET 0 RANGE 2000 -5` replies
`OK` and stores `min_us = 2000`, `max_us = -5`. -/
theorem set_range_command_accepts_min_above_max :
    (handle_command (run_commands startup [ascii "SETUP 0 GPIO 17"])
        (ascii "SET 0 RANGE 65536 1000")).reply = ascii "OK\n" ∧
    channel_at
        (run_commands startup [ascii "SETUP 0 GPIO 17", ascii "SET 0 RANGE 65536 1000"]) 0
      = { gpio := 17, enabled := 0, min_us := 0, max_us := 1000, pulse_us := 1500 } ∧
    (handle_command (run_commands startup [ascii "SETUP 0 GPIO 17"])
        (ascii "SET 0 RANGE 2000 -5")).reply = ascii "OK\n" ∧
    channel_at
        (run_commands startup [ascii "SETUP 0 GPIO 17", ascii "SET 0 RANGE 2000 -5"]) 0
      = { gpio := 17, enabled := 0, min_us := 2000, max_us := -5, pulse_us := 1500 } := by
  decide

/-- C10 (evaluation at the failing input): no `SETUP` line names channel 1, but
the channel argument 257 of `SETUP 257 GPIO 5` is narrowed to `uint8_t` 1
before the bound check, so the line is answered `OK` and gives channel 1 the
pin 5. The following `ENABLE 1` and `SET 1 PULSE 1200` are then answered `OK`
instead of `ERROR Channel not configured`: channel 1 is enabled, or has its
pulse changed to 1200. On the startup state itself both lines are rejected. -/
theorem setup_257_configures_channel_1 :
    (handle_command startup (ascii "ENABLE 1")).reply
      = ascii "ERROR Channel not configured\n" ∧
    (handle_command startup (ascii "SET 1 PULSE 1200")).reply
      = ascii "ERROR Channel not configured\n" ∧
    (handle_command startup (ascii "SETUP 257 GPIO 5")).reply = ascii "OK\n" ∧
    channel_at (run_commands startup [ascii "SETUP 257 GPIO 5"]) 1
      = { gpio := 5, enabled := 0, min_us := 1000, max_us := 2000, pulse_us := 1500 } ∧
    (handle_command (run_commands startup [ascii "SETUP 257 GPIO 5"])
        (ascii "ENABLE 1")).reply = ascii "OK\n" ∧
    channel_at (run_commands startup [ascii "SETUP 257 GPIO 5", ascii "ENABLE 1"]) 1
      = { gpio := 5, enabled := 1, min_us := 1000, max_us := 2000, pulse_us := 1500 } ∧
    (handle_command (run_commands startup [ascii "SETUP 257 GPIO 5"])
        (ascii "SET 1 PULSE 1200")).reply = ascii "OK\n" ∧
    channel_at (run_commands startup [ascii "SETUP 257 GPIO 5", ascii "SET 1 PULSE 1200"]) 1
      = { gpio := 5, enabled := 0, min_us := 1000, max_us := 2000, pulse_us := 1200 } := by
  decide

/-- C11 (evaluation at the failing input): `SETUP 0 GPIO 0` is answered `OK`
(pin 0 passes the check against 27), but the stored pin 0 is also the marker
for "not configured": the following `ENABLE 0` is answered
`ERROR Channel not configured` and `GET 0 STATE` reports `GPIO 0 ENABLE 0`. -/
theorem setup_pin_0_stays_unconfigured :
    (handle_command startup (ascii "SETUP 0 GPIO 0")).reply = ascii "OK\n" ∧
    (handle_command (run_commands startup [ascii "SETUP 0 GPIO 0"])
        (ascii "ENABLE 0")).reply = ascii "ERROR Channel not configured\n" ∧
    (handle_command (run_commands startup [ascii "SETUP 0 GPIO 0", ascii "ENABLE 0"])
        (ascii "GET 0 STATE")).reply = ascii "GPIO 0 ENABLE 0\n" := by
  decide

/-- C12: for a valid channel `c`, a pin `p ≤ 27` and any controller state,
`SETUP c GPIO p` replies `OK` and leaves channel `c` with pin `p`, disabled,
pulse 1500 and range [1000, 2000]; `servo_init` on the old channel succeeds
and produces the same channel; the following `GET c STATE`, `GET c PULSE` and
`GET c RANGE` report `GPIO p ENABLE 0`, `PULSE 1500` and `RANGE 1000 2000`. -/
theorem setup_resets_channel (s : ServoController) (c p : Nat) (hc : c < 8) (hp : p ≤ 27)
    (hlen : s.channels.length = 8) :
    (handle_command s (line_setup c p)).reply = ascii "OK\n" ∧
    channel_at (handle_command s (line_setup c p)).controller c
      = { gpio := p, enabled := 0, min_us := 1000, max_us := 2000, pulse_us := 1500 } ∧
    (servo_init (channel_at s c) p).1 = true ∧
    (servo_init (channel_at s c) p).2.1
      = channel_at (handle_command s (line_setup c p)).controller c ∧
    (handle_command (handle_command s (line_setup c p)).controller
        (line_get_state c)).reply = ascii "GPIO " ++ itoa p ++ ascii " ENABLE 0\n" ∧
    (handle_command (handle_command s (line_setup c p)).controller
        (line_get_pulse c)).reply = ascii "PULSE 1500\n" ∧
    (handle_command (handle_command s (line_setup c p)).controller
        (line_get_range c)).reply = ascii "RANGE 1000 2000\n" := by
  have hch : channel_at
      (store_channel s c
        { gpio := p, enabled := 0, min_us := 1000, max_us := 2000, pulse_us := 1500 }) c
      = { gpio := p, enabled := 0, min_us := 1000, max_us := 2000, pulse_us := 1500 } := by
    rw [channel_at_store, if_pos ⟨rfl, by omega⟩]
  have hinit : servo_init (channel_at s c) p
      = (true, { gpio := p, enabled := 0, min_us := 1000, max_us := 2000, pulse_us := 1500 },
          gpio_set_output p ++ gpio_clear p) := by
    unfold servo_init MAX_GPIO_PIN
    rw [if_neg (by omega)]
    rfl
  rw [handle_setup_pin s c p hc hp]
  refine ⟨rfl, hch, by rw [hinit], by rw [hinit, hch], ?_, ?_, ?_⟩
  · rw [handle_get_state _ c hc (by rw [hch]; simp only []; omega), hch]
    simp only [ne_eq, not_true_eq_false, if_false, Int.toNat_ofNat, itoa_nat,
      List.append_assoc]
    rfl
  · rw [handle_get_pulse _ c hc, hch]
    simp only []
    decide
  · rw [handle_get_range _ c hc, hch]
    simp only []
    decide

/-- C12 (witness): channel 2 of the startup state, pin 27. -/
theorem setup_resets_channel_witness :
    line_setup (2 : Nat) (27 : Nat) = ascii "SETUP 2 GPIO 27" ∧
    channel_at (handle_command startup (line_setup (2 : Nat) (27 : Nat))).controller 2
      = { gpio := 27, enabled := 0, min_us := 1000, max_us := 2000, pulse_us := 1500 } :=
  ⟨by decide, (setup_resets_channel startup 2 27 (by decide) (by decide) (by decide)).2.1⟩

/-- C13: from the startup state, for a valid channel `c`, a pin `p` in 1..27 and
`1000 ≤ v ≤ 2000`, the lines `SETUP c GPIO p`, `GET c STATE`, `ENABLE c`,
`SET c PULSE v`, `GET c PULSE` are answered `OK`, `GPIO p ENABLE 0`, `OK`,
`OK`, `PULSE v`, in this order. -/
theorem scenario_setup_enable_pulse (c p : Nat) (v : Int) (hc : c < 8)
    (hp1 : 1 ≤ p) (hp : p ≤ 27) (hv1 : 1000 ≤ v) (hv : v ≤ 2000) :
    run_replies startup
        [line_setup c p, line_get_state c, line_enable c, line_set_pulse c v, line_get_pulse c]
      = [ascii "OK\n", ascii "GPIO " ++ itoa p ++ ascii " ENABLE 0\n", ascii "OK\n",
         ascii "OK\n", ascii "PULSE " ++ itoa v ++ ascii "\n"] := by
  have hint : in_int v := by unfold in_int; omega
  have hu : toU16 v = v := by unfold toU16; omega
  have hback : toU16 (toI16 v) = v := by unfold toU16 toI16; omega
  have hi : itoa v = utoa v.toNat := by unfold itoa; rw [if_neg (by omega)]
  have hp0 : ¬ ((p : Int) = 0) := by omega
  have hlen : startup.channels.length = 8 := by decide
  have hstore : ∀ (t : ServoController) (ch : ServoChannel), t.channels.length = 8 →
      channel_at (store_channel t c ch) c = ch ∧ (store_channel t c ch).channels.length = 8 := by
    intro t ch ht
    refine ⟨?_, by simp [store_channel, ht]⟩
    rw [channel_at_store, if_pos ⟨rfl, by omega⟩]
  obtain ⟨hch1, hlen1⟩ := hstore startup
    { gpio := p, enabled := 0, min_us := 1000, max_us := 2000, pulse_us := 1500 } hlen
  obtain ⟨hch2, hlen2⟩ := hstore _
    { gpio := p, enabled := 1, min_us := 1000, max_us := 2000, pulse_us := 1500 } hlen1
  obtain ⟨hch3, _⟩ := hstore _
    { gpio := p, enabled := 1, min_us := 1000, max_us := 2000, pulse_us := toI16 v } hlen2
  have h1 := handle_setup_pin startup c p hc hp
  have h2 := handle_get_state _ c hc
    (show 0 ≤ (channel_at (store_channel startup c
        { gpio := p, enabled := 0, min_us := 1000, max_us := 2000, pulse_us := 1500 }) c).gpio ∧
      (channel_at (store_channel startup c
        { gpio := p, enabled := 0, min_us := 1000, max_us := 2000, pulse_us := 1500 }) c).gpio < 256
      by rw [hch1]; simp only []; omega)
  rw [hch1] at h2
  have h3 := handle_enable (store_channel startup c
    { gpio := p, enabled := 0, min_us := 1000, max_us := 2000, pulse_us := 1500 }) c hc
  rw [hch1] at h3
  simp only [hp0, if_false] at h3
  have h4 := handle_set_pulse (store_channel (store_channel startup c
      { gpio := p, enabled := 0, min_us := 1000, max_us := 2000, pulse_us := 1500 }) c
      { gpio := p, enabled := 1, min_us := 1000, max_us := 2000, pulse_us := 1500 }) c v hc hint
  rw [hch2, hu] at h4
  have hin : ¬ (v < 1000 ∨ v > 2000) := by omega
  simp only [hp0, hin, if_false] at h4
  have h5 := handle_get_pulse (store_channel (store_channel (store_channel startup c
      { gpio := p, enabled := 0, min_us := 1000, max_us := 2000, pulse_us := 1500 }) c
      { gpio := p, enabled := 1, min_us := 1000, max_us := 2000, pulse_us := 1500 }) c
      { gpio := p, enabled := 1, min_us := 1000, max_us := 2000, pulse_us := toI16 v }) c hc
  rw [hch3] at h5
  simp only [run_replies, h1, h2, h3, h4, h5, hback, hi, ne_eq, not_true_eq_false, if_false,
    Int.toNat_ofNat, itoa_nat, List.append_assoc]
  rfl

/-- C13 (witness): `c = 0`, `p = 17`, `v = 1200`. -/
theorem scenario_setup_enable_pulse_witness :
    [line_setup (0 : Nat) (17 : Nat), line_get_state (0 : Nat), line_enable (0 : Nat),
      line_set_pulse (0 : Nat) 1200, line_get_pulse (0 : Nat)]
      = [ascii "SETUP 0 GPIO 17", ascii "GET 0 STATE", ascii "ENABLE 0",
         ascii "SET 0 PULSE 1200", ascii "GET 0 PULSE"] ∧
    run_replies startup
        [line_setup (0 : Nat) (17 : Nat), line_get_state (0 : Nat), line_enable (0 : Nat),
          line_set_pulse (0 : Nat) 1200, line_get_pulse (0 : Nat)]
      = [ascii "OK\n", ascii "GPIO " ++ itoa (17 : Nat) ++ ascii " ENABLE 0\n", ascii "OK\n",
         ascii "OK\n", ascii "PULSE " ++ itoa 1200 ++ ascii "\n"] :=
  ⟨by decide,
   scenario_setup_enable_pulse 0 17 1200 (by decide) (by decide) (by decide) (by decide)
    (by decide)⟩

/-- C14 (evaluation at the failing input): `SETUP 0 GPIO 17` issues a
set-output on pin 17 and nothing else, whereas `servo_init` with pin 17 issues
the set-output followed by the drive-low. -/
theorem setup_command_does_not_drive_low :
    (handle_command startup (ascii "SETUP 0 GPIO 17")).reply = ascii "OK\n" ∧
    (handle_command startup (ascii "SETUP 0 GPIO 17")).hw = [HwOp.set_output 17] ∧
    (servo_init zero_channel 17).2.2 = [HwOp.set_output 17, HwOp.set_low 17] := by
  decide

/-- C15 (evaluation at the failing input): on channel 0, configured on pin 17
and enabled, `DISABLE 0` replies `OK` and clears the enabled flag but issues no
register operation, whereas `servo_disable` on that channel drives pin 17
low. -/
theorem disable_command_does_not_drive_low :
    handle_command (run_commands startup [ascii "SETUP 0 GPIO 17", ascii "ENABLE 0"])
        (ascii "DISABLE 0")
      = { controller := store_channel startup 0
            { gpio := 17, enabled := 0, min_us := 1000, max_us := 2000, pulse_us := 1500 },
          reply := ascii "OK\n",
          hw := [] } ∧
    (servo_disable
        (channel_at (run_commands startup [ascii "SETUP 0 GPIO 17", ascii "ENABLE 0"]) 0)).2
      = [HwOp.set_low 17] := by
  decide

/-- C16 (counterexample): in the startup state channel 0 is all zero, and a
fresh daemon answers `GET 0 PULSE` with `PULSE 0` and `GET 0 RANGE` with
`RANGE 0 0`, not with `PULSE 1500` and `RANGE 1000 2000`. -/
theorem startup_pulse_is_not_neutral :
    (channel_at startup 0).pulse_us ≠ 1500 ∧
    (handle_command startup (ascii "GET 0 PULSE")).reply = ascii "PULSE 0\n" ∧
    (handle_command startup (ascii "GET 0 PULSE")).reply ≠ ascii "PULSE 1500\n" ∧
    (handle_command startup (ascii "GET 0 RANGE")).reply = ascii "RANGE 0 0\n" ∧
    (handle_command startup (ascii "GET 0 RANGE")).reply ≠ ascii "RANGE 1000 2000\n" := by
  decide

/-- C16 (amended): in the startup state each of the 8 channels is unconfigured
(pin field 0) and disabled, with `pulse_us = 0` and range (0, 0); a fresh daemon
answers `GET c PULSE` with `PULSE 0`, `GET c RANGE` with `RANGE 0 0` and
`GET c STATE` with `GPIO 0 ENABLE 0`. -/
theorem startup_channels_are_zero (c : Nat) (hc : c < 8) :
    startup.channels.length = 8 ∧
    channel_at startup c
      = { gpio := 0, enabled := 0, min_us := 0, max_us := 0, pulse_us := 0 } ∧
    (handle_command startup (line_get_pulse c)).reply = ascii "PULSE 0\n" ∧
    (handle_command startup (line_get_range c)).reply = ascii "RANGE 0 0\n" ∧
    (handle_command startup (line_get_state c)).reply = ascii "GPIO 0 ENABLE 0\n" := by
  have hz := startup_channel c
  refine ⟨by decide, hz, ?_, ?_, ?_⟩
  · rw [handle_get_pulse _ c hc, hz]
    decide
  · rw [handle_get_range _ c hc, hz]
    decide
  · rw [handle_get_state _ c hc (by rw [hz]; decide), hz]
    decide

/-- C16 (witness): channel 5 of a fresh daemon. -/
theorem startup_channels_are_zero_witness :
    line_get_pulse (5 : Nat) = ascii "GET 5 PULSE" ∧
    (handle_command startup (line_get_pulse (5 : Nat))).reply = ascii "PULSE 0\n" :=
  ⟨by decide, (startup_channels_are_zero 5 (by decide)).2.2.1⟩

/-- C19 (evaluation at the failing input, and the part of the claim that
holds): `SETUP 256 GPIO 17` addresses channel 256, yet it is answered `OK` and
rewrites channel 0; after `SETUP 1 GPIO 17`, the line `SET 257 PULSE 1200` is
answered `OK` and changes the pulse of channel 1. For every controller state
and every command line, `handle_command` changes at most one channel and
keeps the number of channels, and whenever the reply starts with `ERROR `, or
the command is one of the three `GET` commands, the whole controller is
unchanged. -/
theorem handle_command_changes_unaddressed_channel :
    ((handle_command startup (ascii "SETUP 256 GPIO 17")).reply = ascii "OK\n" ∧
      channel_at startup 0
        = { gpio := 0, enabled := 0, min_us := 0, max_us := 0, pulse_us := 0 } ∧
      channel_at (handle_command startup (ascii "SETUP 256 GPIO 17")).controller 0
        = { gpio := 17, enabled := 0, min_us := 1000, max_us := 2000, pulse_us := 1500 } ∧
      (handle_command (run_commands startup [ascii "SETUP 1 GPIO 17"])
          (ascii "SET 257 PULSE 1200")).reply = ascii "OK\n" ∧
      (channel_at (run_commands startup [ascii "SETUP 1 GPIO 17"]) 1).pulse_us = 1500 ∧
      (channel_at
          (handle_command (run_commands startup [ascii "SETUP 1 GPIO 17"])
            (ascii "SET 257 PULSE 1200")).controller 1).pulse_us = 1200) ∧
    (∀ (s : ServoController) (line : List Nat),
      (∃ i : Nat, ∀ j : Nat, j ≠ i →
        channel_at (handle_command s line).controller j = channel_at s j) ∧
      (handle_command s line).controller.num_channels = s.num_channels ∧
      (handle_command s line).controller.channels.length = s.channels.length ∧
      ((handle_command s line).reply.take 6 = ascii "ERROR " →
        (handle_command s line).controller = s) ∧
      ((parse_command line blank_command).2.type = CommandType.CMD_GET_RANGE ∨
        (parse_command line blank_command).2.type = CommandType.CMD_GET_PULSE ∨
        (parse_command line blank_command).2.type = CommandType.CMD_GET_STATE →
        (handle_command s line).controller = s)) := by
  refine ⟨by decide, fun s line => ?_⟩
  have h := handle_command_frame_aux s line
  exact ⟨⟨_, h.1⟩, h.2⟩

/-- C19 (witness): on a controller with channel 0 configured, the rejected
`SET 0 PULSE 3000` changes nothing, and so does `GET 0 PULSE`. -/
theorem handle_command_changes_unaddressed_channel_witness :
    (handle_command (run_commands startup [ascii "SETUP 0 GPIO 17"])
        (ascii "SET 0 PULSE 3000")).reply.take 6 = ascii "ERROR " ∧
    (handle_command (run_commands startup [ascii "SETUP 0 GPIO 17"])
        (ascii "SET 0 PULSE 3000")).controller
      = run_commands startup [ascii "SETUP 0 GPIO 17"] ∧
    (parse_command (ascii "GET 0 PULSE") blank_command).2.type = CommandType.CMD_GET_PULSE ∧
    (handle_command (run_commands startup [ascii "SETUP 0 GPIO 17"])
        (ascii "GET 0 PULSE")).controller
      = run_commands startup [ascii "SETUP 0 GPIO 17"] :=
  ⟨by decide,
   (handle_command_changes_unaddressed_channel.2
      (run_commands startup [ascii "SETUP 0 GPIO 17"])
      (ascii "SET 0 PULSE 3000")).2.2.2.1 (by decide),
   by decide,
   (handle_command_changes_unaddressed_channel.2
      (run_commands startup [ascii "SETUP 0 GPIO 17"])
      (ascii "GET 0 PULSE")).2.2.2.2 (Or.inr (Or.inl (by decide)))⟩

/-- C20: a line whose tokens are malformed (no token at all, an unrecognized
keyword, an unrecognized `SET`/`GET` sub-command, `SETUP` without `GPIO`, or a
missing argument) makes `parse_command` return false with type `CMD_INVALID`,
and `handle_command` replies `ERROR Invalid command` and changes nothing; these
are the only lines on which `parse_command` returns false; and whenever
`parse_command` returns true the type is one of the eight valid types. -/
theorem malformed_line_rejected (s : ServoController) (line : List Nat) (cmd : Command) :
    (malformed (tokens (working_copy line)) = true →
      (parse_command line cmd).1 = false ∧
      (parse_command line cmd).2.type = CommandType.CMD_INVALID ∧
      handle_command s line
        = { controller := s, reply := ascii "ERROR Invalid command\n", hw := [] }) ∧
    ((parse_command line cmd).1 = false → malformed (tokens (working_copy line)) = true) ∧
    ((parse_command line cmd).1 = true →
      (parse_command line cmd).2.type ∈
        [CommandType.CMD_SETUP, CommandType.CMD_ENABLE, CommandType.CMD_DISABLE,
         CommandType.CMD_SET_RANGE, CommandType.CMD_SET_PULSE, CommandType.CMD_GET_RANGE,
         CommandType.CMD_GET_PULSE, CommandType.CMD_GET_STATE]) := by
  obtain ⟨h1, h2, h3⟩ := parse_command_result line cmd
  obtain ⟨b1, _, _⟩ := parse_command_result line blank_command
  refine ⟨fun hm => ?_, fun hf => ?_, fun ht => ?_⟩
  · have hf : (parse_command line cmd).1 = false := by rw [h1, hm]; rfl
    have hfb : (parse_command line blank_command).1 = false := by rw [b1, hm]; rfl
    exact ⟨hf, h2 hf, handle_command_parse_false s line hfb⟩
  · rw [h1] at hf
    simpa using hf
  · have hne := h3 ht
    cases hty : (parse_command line cmd).2.type <;> simp_all

/-- C20 (witness): `SETUP 0 17` has no `GPIO` keyword. -/
theorem malformed_line_rejected_witness :
    malformed (tokens (working_copy (ascii "SETUP 0 17"))) = true ∧
    handle_command startup (ascii "SETUP 0 17")
      = { controller := startup, reply := ascii "ERROR Invalid command\n", hw := [] } :=
  ⟨by decide,
   ((malformed_line_rejected startup (ascii "SETUP 0 17") blank_command).1 (by decide)).2.2⟩

/-- C17: for a controller with 8 channels whose pins are at most 27 and whose
pulse widths are non-negative (`int16_t` values), the trace of one
`pwm_run_frame` starts with one set-high per enabled channel, in channel
order, and no pin is driven high after that; the pin of every enabled channel
is driven low exactly when the sleeps issued so far add up to its `pulse_us`
(the pin-low events, each with the sum of the preceding sleeps, are the
enabled channels in sorted order with their pulse widths); and the enabled
channels in sorted order are a rearrangement of the enabled channel ids. -/
theorem frame_pulse_widths (s : ServoController) (hn : s.num_channels = 8)
    (hpin : ∀ i < 8, pin_of s i ≤ 27)
    (hpulse : ∀ i < 8, 0 ≤ pulse_of s i ∧ pulse_of s i ≤ 32767) :
    pwm_run_frame s
      = ((List.range 8).filter (is_enabled s)).map (fun i => HwOp.set_high (pin_of s i))
        ++ pwm_clear_loop s (sorted_channels s) 0 ∧
    high_pins (pwm_clear_loop s (sorted_channels s) 0) = [] ∧
    low_times (pwm_run_frame s) 0
      = ((sorted_channels s).filter (is_enabled s)).map
          (fun i => (pin_of s i, pulse_of s i)) ∧
    List.Perm ((sorted_channels s).filter (is_enabled s))
      ((List.range 8).filter (is_enabled s)) := by
  obtain ⟨hsorted, hperm⟩ := sorted_channels_sorted s
  have hmem := sorted_channels_mem s hn
  have hframe : pwm_run_frame s
      = ((List.range 8).filter (is_enabled s)).map (fun i => HwOp.set_high (pin_of s i))
        ++ pwm_clear_loop s (sorted_channels s) 0 := by
    unfold pwm_run_frame
    rw [pwm_set_high_eq s hn hpin]
  refine ⟨hframe, ?_, ?_, ?_⟩
  · exact (clear_loop_pins s _ 0 (fun i hi => hpin i (hmem i hi))).1
  · rw [hframe, low_times_map_high]
    exact clear_loop_times s _ 0 (fun i hi => hpin i (hmem i hi)) hsorted (le_refl 0)
      (fun i hi => hpulse i (hmem i hi))
  · rw [hn] at hperm
    exact hperm.filter _

/-- C17 (witness): channel 0 on pin 17 at 1000 and channel 1 on pin 18 at 1800,
both enabled: high 17, high 18, sleep 1000, low 17, sleep 800, low 18. -/
theorem frame_pulse_widths_witness :
    pwm_run_frame
        (run_commands startup
          [ascii "SETUP 0 GPIO 17", ascii "SETUP 1 GPIO 18", ascii "SET 0 PULSE 1000",
           ascii "SET 1 PULSE 1800", ascii "ENABLE 0", ascii "ENABLE 1"])
      = [HwOp.set_high 17, HwOp.set_high 18, HwOp.sleep 1000, HwOp.set_low 17,
         HwOp.sleep 800, HwOp.set_low 18] ∧
    low_times
        (pwm_run_frame
          (run_commands startup
            [ascii "SETUP 0 GPIO 17", ascii "SETUP 1 GPIO 18", ascii "SET 0 PULSE 1000",
             ascii "SET 1 PULSE 1800", ascii "ENABLE 0", ascii "ENABLE 1"])) 0
      = [(17, 1000), (18, 1800)] :=
  ⟨by decide,
   ((frame_pulse_widths
      (run_commands startup
        [ascii "SETUP 0 GPIO 17", ascii "SETUP 1 GPIO 18", ascii "SET 0 PULSE 1000",
         ascii "SET 1 PULSE 1800", ascii "ENABLE 0", ascii "ENABLE 1"])
      (by decide) (by decide) (by decide)).2.2.1).trans (by decide)⟩

/-- C18: for a controller with 8 channels whose pins are at most 27, in the
trace of one `pwm_run_frame` the pins driven high are those of the enabled
channels in channel order, the pins driven low are those of the enabled
channels in sorted order, which is non-decreasing in `pulse_us` and lists
every enabled channel exactly once; the trace is the one obtained from the
enabled channels alone, with at most one sleep per enabled channel; and with
no enabled channel the trace is empty. -/
theorem frame_order_and_disabled (s : ServoController) (hn : s.num_channels = 8)
    (hpin : ∀ i < 8, pin_of s i ≤ 27) :
    high_pins (pwm_run_frame s) = ((List.range 8).filter (is_enabled s)).map (pin_of s) ∧
    low_pins (pwm_run_frame s) = ((sorted_channels s).filter (is_enabled s)).map (pin_of s) ∧
    ((sorted_channels s).filter (is_enabled s)).Pairwise
      (fun a b => pulse_of s a ≤ pulse_of s b) ∧
    List.Perm ((sorted_channels s).filter (is_enabled s))
      ((List.range 8).filter (is_enabled s)) ∧
    ((sorted_channels s).filter (is_enabled s)).Nodup ∧
    pwm_run_frame s
      = ((List.range 8).filter (is_enabled s)).map (fun i => HwOp.set_high (pin_of s i))
        ++ pwm_clear_loop s ((sorted_channels s).filter (is_enabled s)) 0 ∧
    (sleeps (pwm_run_frame s)).length ≤ ((List.range 8).filter (is_enabled s)).length ∧
    ((∀ i < 8, is_enabled s i = false) → pwm_run_frame s = []) := by
  obtain ⟨hsorted, hperm⟩ := sorted_channels_sorted s
  rw [hn] at hperm
  have hmem := sorted_channels_mem s hn
  have hframe : pwm_run_frame s
      = ((List.range 8).filter (is_enabled s)).map (fun i => HwOp.set_high (pin_of s i))
        ++ pwm_clear_loop s (sorted_channels s) 0 := by
    unfold pwm_run_frame
    rw [pwm_set_high_eq s hn hpin]
  obtain ⟨hh, hl, hs⟩ := clear_loop_pins s (sorted_channels s) 0 (fun i hi => hpin i (hmem i hi))
  have hpf : List.Perm ((sorted_channels s).filter (is_enabled s))
      ((List.range 8).filter (is_enabled s)) := hperm.filter _
  refine ⟨?_, ?_, hsorted.filter _, hpf, ?_, pwm_run_frame_eq s hn hpin, ?_, ?_⟩
  · rw [hframe, high_pins_append_map, hh, List.append_nil]
  · rw [hframe, low_pins_map_high, hl]
  · exact hpf.nodup_iff.mpr ((List.nodup_range 8).filter _)
  · rw [hframe, sleeps_map_high]
    exact le_trans hs (le_of_eq hpf.length_eq)
  · intro hnone
    have h1 : (List.range 8).filter (is_enabled s) = [] := by
      rw [List.filter_eq_nil_iff]
      intro i hi
      rw [hnone i (List.mem_range.mp hi)]
      simp
    have h2 : (sorted_channels s).filter (is_enabled s) = [] := by
      rw [List.filter_eq_nil_iff]
      intro i hi
      rw [hnone i (hmem i hi)]
      simp
    rw [pwm_run_frame_eq s hn hpin, h1, h2]
    rfl

/-- C18 (witness): channel 0 (pin 17, pulse 1800) and channel 2 (pin 19, pulse
1000) enabled, channel 1 (pin 18) configured but disabled: pin 19 is lowered
before pin 17 and pin 18 never appears. -/
theorem frame_order_and_disabled_witness :
    pwm_run_frame
        (run_commands startup
          [ascii "SETUP 0 GPIO 17", ascii "SETUP 1 GPIO 18", ascii "SETUP 2 GPIO 19",
           ascii "SET 0 PULSE 1800", ascii "SET 2 PULSE 1000", ascii "ENABLE 0",
           ascii "ENABLE 2"])
      = [HwOp.set_high 17, HwOp.set_high 19, HwOp.sleep 1000, HwOp.set_low 19,
         HwOp.sleep 800, HwOp.set_low 17] ∧
    low_pins
        (pwm_run_frame
          (run_commands startup
            [ascii "SETUP 0 GPIO 17", ascii "SETUP 1 GPIO 18", ascii "SETUP 2 GPIO 19",
             ascii "SET 0 PULSE 1800", ascii "SET 2 PULSE 1000", ascii "ENABLE 0",
             ascii "ENABLE 2"]))
      = [19, 17] :=
  ⟨by decide,
   ((frame_order_and_disabled
      (run_commands startup
        [ascii "SETUP 0 GPIO 17", ascii "SETUP 1 GPIO 18", ascii "SETUP 2 GPIO 19",
         ascii "SET 0 PULSE 1800", ascii "SET 2 PULSE 1000", ascii "ENABLE 0",
         ascii "ENABLE 2"])
      (by decide) (by decide)).2.1).trans (by decide)⟩

/-- C22: changing the case of any letters of a command line does not change
what `parse_command` returns (return value and the whole command structure),
nor what `handle_command` does with the line; in particular
`setup 0 gpio 17` parses exactly as `SETUP 0 GPIO 17`. -/
theorem parse_command_case_insensitive (flags : List Bool) (s : List Nat) (cmd : Command)
    (controller : ServoController) :
    parse_command (recase flags s) cmd = parse_command s cmd ∧
    handle_command controller (recase flags s) = handle_command controller s ∧
    parse_command (ascii "setup 0 gpio 17") cmd = parse_command (ascii "SETUP 0 GPIO 17") cmd := by
  have hw := working_copy_case _ _ (str_toupper_recase flags s)
  refine ⟨parse_command_working_copy _ _ cmd hw, ?_,
    parse_command_working_copy _ _ cmd (working_copy_case _ _ (by decide))⟩
  unfold handle_command
  rw [parse_command_working_copy _ _ blank_command hw]

/-- C24: for a controller with 8 channels, the index array computed by the
bubble sort of `pwm_run_frame` is a permutation of the channel ids 0..7, in
ascending order of `pulse_us`, and stable: of two channels with equal pulse
width the one with the smaller id comes first. -/
theorem bubble_sort_stable (s : ServoController) (hn : s.num_channels = 8) :
    List.Perm (sorted_channels s) (List.range 8) ∧
    (sorted_channels s).Pairwise (fun a b => pulse_of s a ≤ pulse_of s b) ∧
    (sorted_channels s).Pairwise (fun a b => pulse_of s a = pulse_of s b → a < b) := by
  obtain ⟨hsorted, hperm⟩ := sorted_channels_sorted s
  rw [hn] at hperm
  exact ⟨hperm, hsorted, sorted_channels_stable s⟩

/-- C24 (witness): channels 0, 1 and 2 at 1500, 1200 and 1500, the others at 0:
the unconfigured channels come first in id order, then channel 1, then the
tied channels 0 and 2 in id order. -/
theorem bubble_sort_stable_witness :
    sorted_channels
        (run_commands startup
          [ascii "SETUP 0 GPIO 17", ascii "SETUP 1 GPIO 18", ascii "SETUP 2 GPIO 19",
           ascii "SET 1 PULSE 1200"])
      = [3, 4, 5, 6, 7, 1, 0, 2] ∧
    (sorted_channels
        (run_commands startup
          [ascii "SETUP 0 GPIO 17", ascii "SETUP 1 GPIO 18", ascii "SETUP 2 GPIO 19",
           ascii "SET 1 PULSE 1200"])).Pairwise
      (fun a b =>
        pulse_of
            (run_commands startup
              [ascii "SETUP 0 GPIO 17", ascii "SETUP 1 GPIO 18", ascii "SETUP 2 GPIO 19",
               ascii "SET 1 PULSE 1200"]) a
          = pulse_of
            (run_commands startup
              [ascii "SETUP 0 GPIO 17", ascii "SETUP 1 GPIO 18", ascii "SETUP 2 GPIO 19",
               ascii "SET 1 PULSE 1200"]) b
        → a < b) :=
  ⟨by decide,
   (bubble_sort_stable
      (run_commands startup
        [ascii "SETUP 0 GPIO 17", ascii "SETUP 1 GPIO 18", ascii "SETUP 2 GPIO 19",
         ascii "SET 1 PULSE 1200"])
      (by decide)).2.2⟩

/-- C25: in every controller reached from the startup state by any sequence of
command lines all pulse widths lie in 0..32767, so in `pwm_run_frame` the
deltas computed in unsigned 32-bit arithmetic are the true differences (step 3
equals the loop computed on the integers) and every sleep is positive; the
sleeps of one frame add up to 0 when no channel is enabled, and otherwise to
the pulse width of an enabled channel that no enabled channel exceeds. -/
theorem reachable_frame_no_wrap (lines : List (List Nat)) :
    reachable_bounds (run_commands startup lines) ∧
    pwm_clear_loop (run_commands startup lines)
        (sorted_channels (run_commands startup lines)) 0
      = pwm_clear_loop_exact (run_commands startup lines)
          (sorted_channels (run_commands startup lines)) 0 ∧
    (∀ us ∈ sleeps (pwm_run_frame (run_commands startup lines)), 0 < us) ∧
    ((∀ i < 8, is_enabled (run_commands startup lines) i = false) →
      (sleeps (pwm_run_frame (run_commands startup lines))).sum = 0) ∧
    (∀ i < 8, is_enabled (run_commands startup lines) i = true →
      ∃ k < 8, is_enabled (run_commands startup lines) k = true ∧
        (sleeps (pwm_run_frame (run_commands startup lines))).sum
          = pulse_of (run_commands startup lines) k ∧
        ∀ j < 8, is_enabled (run_commands startup lines) j = true →
          pulse_of (run_commands startup lines) j ≤ pulse_of (run_commands startup lines) k) := by
  have hb := reachable_bounds_run lines startup startup_bounds
  generalize run_commands startup lines = s at hb ⊢
  obtain ⟨hn, hall⟩ := hb
  obtain ⟨hsorted, hperm⟩ := sorted_channels_sorted s
  rw [hn] at hperm
  have hmem : ∀ i, i ∈ sorted_channels s ↔ i < 8 := fun i =>
    ⟨fun hi => List.mem_range.mp (hperm.subset hi),
     fun hi => hperm.symm.subset (List.mem_range.mpr hi)⟩
  have hexact : pwm_clear_loop s (sorted_channels s) 0
      = pwm_clear_loop_exact s (sorted_channels s) 0 :=
    clear_loop_exact s _ 0 hsorted (le_refl 0)
      (fun i _ => ⟨(hall i).2.1, (hall i).2.2.1⟩)
  have hsleeps : sleeps (pwm_run_frame s)
      = sleeps (pwm_clear_loop_exact s (sorted_channels s) 0) := by
    unfold pwm_run_frame
    rw [pwm_set_high_eq s hn (fun i _ => (hall i).1), sleeps_map_high, hexact]
  obtain ⟨m, hsum, hm⟩ := clear_loop_exact_sum s (sorted_channels s) 0 hsorted
    (fun i _ => (hall i).2.1)
  refine ⟨⟨hn, hall⟩, hexact, ?_, ?_, ?_⟩
  · rw [hsleeps]
    exact clear_loop_exact_positive s _ 0
  · intro hnone
    rw [hsleeps, hsum]
    rcases hm with ⟨hm0, _⟩ | ⟨k, hk, hken, _, _⟩
    · omega
    · rw [hnone k ((hmem k).mp hk)] at hken
      exact absurd hken (by simp)
  · intro i hi hien
    rcases hm with ⟨_, hnone⟩ | ⟨k, hk, hken, hmk, hmax⟩
    · rw [hnone i ((hmem i).mpr hi)] at hien
      exact absurd hien (by simp)
    · refine ⟨k, (hmem k).mp hk, hken, ?_, fun j hj hjen => hmax j ((hmem j).mpr hj) hjen⟩
      rw [hsleeps, hsum, hmk]
      omega

/-- C25 (witness): channel 0 at 1800 and channel 1 at 1000, both enabled: the
sleeps are 1000 and 800 and add up to 1800. -/
theorem reachable_frame_no_wrap_witness :
    sleeps
        (pwm_run_frame
          (run_commands startup
            [ascii "SETUP 0 GPIO 17", ascii "SETUP 1 GPIO 18", ascii "SET 0 PULSE 1800",
             ascii "SET 1 PULSE 1000", ascii "ENABLE 0", ascii "ENABLE 1"]))
      = [1000, 800] ∧
    ∃ k < 8,
      is_enabled
          (run_commands startup
            [ascii "SETUP 0 GPIO 17", ascii "SETUP 1 GPIO 18", ascii "SET 0 PULSE 1800",
             ascii "SET 1 PULSE 1000", ascii "ENABLE 0", ascii "ENABLE 1"]) k = true ∧
        (sleeps
            (pwm_run_frame
              (run_commands startup
                [ascii "SETUP 0 GPIO 17", ascii "SETUP 1 GPIO 18", ascii "SET 0 PULSE 1800",
                 ascii "SET 1 PULSE 1000", ascii "ENABLE 0", ascii "ENABLE 1"]))).sum
          = pulse_of
              (run_commands startup
                [ascii "SETUP 0 GPIO 17", ascii "SETUP 1 GPIO 18", ascii "SET 0 PULSE 1800",
                 ascii "SET 1 PULSE 1000", ascii "ENABLE 0", ascii "ENABLE 1"]) k ∧
        ∀ j < 8,
          is_enabled
              (run_commands startup
                [ascii "SETUP 0 GPIO 17", ascii "SETUP 1 GPIO 18", ascii "SET 0 PULSE 1800",
                 ascii "SET 1 PULSE 1000", ascii "ENABLE 0", ascii "ENABLE 1"]) j = true →
            pulse_of
                (run_commands startup
                  [ascii "SETUP 0 GPIO 17", ascii "SETUP 1 GPIO 18", ascii "SET 0 PULSE 1800",
                   ascii "SET 1 PULSE 1000", ascii "ENABLE 0", ascii "ENABLE 1"]) j
              ≤ pulse_of
                (run_commands startup
                  [ascii "SETUP 0 GPIO 17", ascii "SETUP 1 GPIO 18", ascii "SET 0 PULSE 1800",
                   ascii "SET 1 PULSE 1000", ascii "ENABLE 0", ascii "ENABLE 1"]) k :=
  ⟨by decide,
   (reachable_frame_no_wrap
      [ascii "SETUP 0 GPIO 17", ascii "SETUP 1 GPIO 18", ascii "SET 0 PULSE 1800",
       ascii "SET 1 PULSE 1000", ascii "ENABLE 0", ascii "ENABLE 1"]).2.2.2.2 0
    (by decide) (by decide)⟩

/-- C21: for every response and buffer size, `format_response` prints the text
`OK\n`, `ERROR <message>\n`, `RANGE <min> <max>\n`, `PULSE <value>\n` or
`GPIO <pin> ENABLE <0|1>\n` that belongs to the response type (numbers in
decimal); when the text fits the buffer it is written as it is and its length
is returned, and -1 is returned exactly when it does not fit. Every reply of
`handle_command` (on a controller whose pin fields are `uint8_t` values) is one
of these five forms and ends in its only newline. -/
theorem format_response_spec (resp : Response) (buffer : List Nat) (n : Nat)
    (s : ServoController) (line : List Nat)
    (hg : ∀ i < 8, 0 ≤ (channel_at s i).gpio ∧ (channel_at s i).gpio < 256) :
    (∃ text : List Nat,
      ((resp.type = ResponseType.RESP_OK ∧ text = ascii "OK\n") ∨
       (resp.type = ResponseType.RESP_ERROR ∧
          text = ascii "ERROR " ++ resp.error_message ++ ascii "\n") ∨
       (resp.type = ResponseType.RESP_RANGE ∧
          text = ascii "RANGE " ++ utoa resp.range_min.toNat ++ ascii " "
            ++ utoa resp.range_max.toNat ++ ascii "\n") ∨
       (resp.type = ResponseType.RESP_PULSE ∧
          text = ascii "PULSE " ++ utoa resp.pulse_value.toNat ++ ascii "\n") ∨
       (resp.type = ResponseType.RESP_STATE ∧
          text = ascii "GPIO " ++ utoa resp.state_gpio.toNat ++ ascii " ENABLE "
            ++ (if resp.state_enabled then ascii "1" else ascii "0") ++ ascii "\n")) ∧
      (text.length < n → format_response resp buffer n = ((text.length : Int), text)) ∧
      ((format_response resp buffer n).1 = -1 ↔ n ≤ text.length)) ∧
    well_formed_reply (handle_command s line).reply ∧
    (handle_command s line).reply.count 10 = 1 ∧
    (handle_command s line).reply.getLast? = some 10 :=
  ⟨⟨response_text resp, response_text_forms resp, format_response_result resp buffer n⟩,
   handle_command_reply_form s line hg⟩

/-- C21 (witness): the reply to `GET 0 STATE` on a fresh daemon, and an `OK`
response formatted into buffers of 256 and of 3 bytes. -/
theorem format_response_spec_witness :
    (handle_command startup (ascii "GET 0 STATE")).reply = ascii "GPIO 0 ENABLE 0\n" ∧
    (handle_command startup (ascii "GET 0 STATE")).reply.count 10 = 1 ∧
    format_response blank_response [] 256 = (3, ascii "OK\n") ∧
    (format_response blank_response [] 3).1 = -1 :=
  ⟨by decide,
   (format_response_spec blank_response [] 256 startup (ascii "GET 0 STATE")
      (by decide)).2.2.1,
   by decide, by decide⟩

/-- C23: for a buffered remainder `b` and a newly read, non-empty chunk `d`,
both without NUL bytes and with `|b| + |d| ≤ 255`, `handle_client_data` calls
`handle_command` once for each newline-terminated line of `b ++ d`, in order
(the replies are those of handling these lines one after the other, one per
line, and the controller is the one they lead to), keeps the client connected
and leaves exactly the text after the last newline in the buffer. -/
theorem handle_client_data_lines (s : ServoController) (b d : List Nat)
    (hb : ∀ x ∈ b, x ≠ 0) (hd : ∀ x ∈ d, x ≠ 0) (hne : d ≠ [])
    (hlen : b.length + d.length ≤ 255) :
    (handle_client_data s b d).lines = (split_lines (b ++ d)).1 ∧
    (handle_client_data s b d).calls.map Handled.reply
      = run_replies s (split_lines (b ++ d)).1 ∧
    (handle_client_data s b d).calls.length = (split_lines (b ++ d)).1.length ∧
    (handle_client_data s b d).controller = run_commands s (split_lines (b ++ d)).1 ∧
    (handle_client_data s b d).buffer = (split_lines (b ++ d)).2 ∧
    (handle_client_data s b d).connected = true := by
  have hnz : ∀ x ∈ b ++ d, x ≠ 0 := by
    intro x hx
    rcases List.mem_append.mp hx with hx | hx
    · exact hb x hx
    · exact hd x hx
  obtain ⟨h1, h2, h3, _⟩ := client_loop_lines (b ++ d).length s (b ++ d) hnz (le_refl _)
  rw [handle_client_data_fits s b d hb hd hne hlen]
  refine ⟨h2, h3, ?_, h1, rfl, rfl⟩
  have hl := congrArg List.length h3
  rw [List.length_map, run_replies_length] at hl
  exact hl

/-- C23 (witness): with `SETUP 0 ` buffered, the chunk
`GPIO 17\nGET 0 STATE\nENA` completes two lines, which are answered in order,
and `ENA` stays buffered. -/
theorem handle_client_data_lines_witness :
    split_lines (ascii "SETUP 0 " ++ ascii "GPIO 17\nGET 0 STATE\nENA")
      = ([ascii "SETUP 0 GPIO 17", ascii "GET 0 STATE"], ascii "ENA") ∧
    (handle_client_data startup (ascii "SETUP 0 ")
        (ascii "GPIO 17\nGET 0 STATE\nENA")).calls.map Handled.reply
      = [ascii "OK\n", ascii "GPIO 17 ENABLE 0\n"] ∧
    (handle_client_data startup (ascii "SETUP 0 ")
        (ascii "GPIO 17\nGET 0 STATE\nENA")).buffer
      = (split_lines (ascii "SETUP 0 " ++ ascii "GPIO 17\nGET 0 STATE\nENA")).2 :=
  ⟨by decide, by decide,
   (handle_client_data_lines startup (ascii "SETUP 0 ") (ascii "GPIO 17\nGET 0 STATE\nENA")
      (by decide) (by decide) (by decide) (by decide)).2.2.2.2.1⟩

end Piservod
